import Mathlib

/-!
# twitter-scraper: the request executor and the search entry points

A shallow embedding of `api.go` (`RequestAPI`, `GetGuestToken`) and of
`search.go` (`getSearchTimeline`, `getSearchTimelineWithResponseHeaders`,
`FetchSearchTweets`, `FetchSearchTweetsWithResponseHeaders`,
`FetchSearchProfiles`).

Conventions of the embedding.

* A Go `error` is an `Option Error`; `none` is `nil`.  A Go pointer result
  that may be `nil` is an `Option`.
* Go strings and byte slices are `String`s (well-formed UTF-8 text).
* Instants are integers counting nanoseconds; `time.Hour` is `3600 * 10^9`.
* `int` and `int64` are both 64 bits wide.
* The effects of a call (the transport, the cookie jar, the clock) are read
  from an explicit environment, the scraper is passed and returned, and every
  call on the wait group or on the HTTP client is appended to a trace.
* The standard library (`strconv`, `strings`, `net/textproto`,
  `encoding/json`) is modelled as far as the embedded code calls it.
-/

namespace TwitterScraper

/-! ## Standard library: `strings`, `strconv`, `net/textproto` -/

/-- The rune `strings.ToLower` yields, up to runes whose image is not ASCII:
ASCII capitals, U+0130 and U+212A are the only runes whose lower case is an
ASCII letter; every other rune is kept, which changes no comparison against an
ASCII name. -/
def lowerRune (c : Char) : Char :=
  if 65 ≤ c.toNat ∧ c.toNat ≤ 90 then Char.ofNat (c.toNat + 32)
  else if c.toNat = 0x130 then 'i'
  else if c.toNat = 0x212A then 'k'
  else c

/-- The function `strings.ToLower`, as used to compare header names. -/
def toLower (s : String) : String := String.mk (s.data.map lowerRune)

/-- Value of a decimal digit. -/
def digitVal (c : Char) : Option Nat :=
  if 48 ≤ c.toNat ∧ c.toNat ≤ 57 then some (c.toNat - 48) else none

/-- Accumulate decimal digits; `none` on a character that is not a digit. -/
def parseDigits : List Char → Nat → Option Nat
  | [], acc => some acc
  | c :: cs, acc =>
    match digitVal c with
    | some d => parseDigits cs (acc * 10 + d)
    | none => none

/-- The function `strconv.ParseUint(s, 10, _)` before the range check: a
non-empty run of decimal digits. -/
def parseUintDigits (cs : List Char) : Option Nat :=
  match cs with
  | [] => none
  | _ :: _ => parseDigits cs 0

/-- The function `strconv.ParseInt(s, 10, bitSize)`: an optional sign, a
non-empty run of digits, and a value within the signed range; `none` stands for
a non-nil error. -/
def ParseInt (s : String) (bitSize : Nat) : Option Int :=
  match s.data with
  | [] => none
  | c :: cs =>
    let neg := c = '-'
    let rest := if c = '+' ∨ c = '-' then cs else c :: cs
    match parseUintDigits rest with
    | none => none
    | some un =>
      let cutoff := 2 ^ (bitSize - 1)
      if ¬ neg ∧ un ≥ cutoff then none
      else if neg ∧ un > cutoff then none
      else some (if neg then -(un : Int) else (un : Int))

/-- The function `strconv.Atoi`: `ParseInt(s, 10, 0)` with a 64-bit `int`. -/
def Atoi (s : String) : Option Int := ParseInt s 64

/-- Digits of a natural number, most significant first. -/
def natDigits : Nat → Nat → List Char
  | 0, _ => []
  | fuel + 1, n =>
    if n < 10 then [Char.ofNat (48 + n)]
    else natDigits fuel (n / 10) ++ [Char.ofNat (48 + n % 10)]

/-- The function `strconv.Itoa`. -/
def Itoa (n : Int) : String :=
  match n with
  | Int.ofNat m => String.mk (natDigits (m + 1) m)
  | Int.negSucc m => String.mk ('-' :: natDigits (m + 2) (m + 1))

/-- The function `strconv.FormatBool`. -/
def FormatBool (b : Bool) : String := if b then "true" else "false"

/-- Bytes allowed in a header field name (`validHeaderFieldByte`): the token
characters of RFC 7230. -/
def validHeaderFieldByte (c : Char) : Bool :=
  let n := c.toNat
  (48 ≤ n ∧ n ≤ 57) ∨ (65 ≤ n ∧ n ≤ 90) ∨ (97 ≤ n ∧ n ≤ 122) ∨
  n = 33 ∨ n = 35 ∨ n = 36 ∨ n = 37 ∨ n = 38 ∨ n = 39 ∨ n = 42 ∨ n = 43 ∨
  n = 45 ∨ n = 46 ∨ n = 94 ∨ n = 95 ∨ n = 96 ∨ n = 124 ∨ n = 126

/-- The capitalisation loop of `canonicalMIMEHeaderKey`: upper case at the
start and after a hyphen, lower case elsewhere. -/
def canonLoop : List Char → Bool → List Char
  | [], _ => []
  | c :: cs, upper =>
    let n := c.toNat
    let c1 :=
      if upper ∧ 97 ≤ n ∧ n ≤ 122 then Char.ofNat (n - 32)
      else if ¬ upper ∧ 65 ≤ n ∧ n ≤ 90 then Char.ofNat (n + 32)
      else c
    c1 :: canonLoop cs (c1 = '-')

/-- The function `textproto.CanonicalMIMEHeaderKey`: a name holding a byte
that is not a token character is returned unchanged. -/
def CanonicalMIMEHeaderKey (s : String) : String :=
  if s.data.all validHeaderFieldByte then String.mk (canonLoop s.data true) else s

/-! ## `net/http`: headers, cookies, requests, responses -/

/-- The type `http.Header`, a map from field name to values, as an association
list; the list order stands for the iteration order of the map. -/
abbrev Header := List (String × List String)

/-- Map lookup `h[key]`. -/
def Header.lookup : Header → String → Option (List String)
  | [], _ => none
  | (k, vs) :: rest, key => if k = key then some vs else Header.lookup rest key

/-- Map deletion. -/
def Header.erase : Header → String → Header
  | [], _ => []
  | (k, vs) :: rest, key =>
    if k = key then Header.erase rest key else (k, vs) :: Header.erase rest key

/-- Method `Header.Set`: the canonical key is bound to the single value. -/
def Header.Set (h : Header) (key value : String) : Header :=
  (CanonicalMIMEHeaderKey key, [value]) :: Header.erase h (CanonicalMIMEHeaderKey key)

/-- Method `Header.Values`: the values bound to the canonical key. -/
def Header.Values (h : Header) (key : String) : Option (List String) :=
  Header.lookup h (CanonicalMIMEHeaderKey key)

/-- Method `Header.Get`: the first value bound to the canonical key, or the
empty string. -/
def Header.Get (h : Header) (key : String) : String :=
  match Header.lookup h (CanonicalMIMEHeaderKey key) with
  | some (v :: _) => v
  | _ => ""

/-- The fields of `http.Cookie` the code reads. -/
structure Cookie where
  Name : String
  Value : String
deriving DecidableEq, Repr

/-- The fields of `http.Request` the code writes: method, URL without query,
the query values in the order they were added, and the header. -/
structure Request where
  Method : String
  URL : String
  Query : List (String × String)
  Header : Header
deriving DecidableEq, Repr

/-- The type `http.Response` as the code reads it: status code, status line,
header, and the outcome of `io.ReadAll(resp.Body)`, the bytes read and the
read error. -/
structure Response where
  StatusCode : Int
  Status : String
  Header : Header
  Body : String
  BodyErr : Option String
deriving DecidableEq, Repr

/-! ## `encoding/json`: values and the syntax of a document -/

/-- A JSON value; a number keeps its literal text, which is what the decoder
hands to `strconv`. -/
inductive JSON where
  | null
  | bool (b : Bool)
  | num (lit : String)
  | str (s : String)
  | arr (xs : List JSON)
  | obj (kvs : List (String × JSON))

/-- The nesting limit of the scanner (`maxNestingDepth`). -/
def maxNestingDepth : Nat := 10000

/-- JSON white space. -/
def isSpace (c : Char) : Bool :=
  c.toNat = 32 ∨ c.toNat = 9 ∨ c.toNat = 13 ∨ c.toNat = 10

/-- Drop leading white space. -/
def skipWS : List Char → List Char
  | [] => []
  | c :: cs => if isSpace c then skipWS cs else c :: cs

/-- Split off the leading run of decimal digits. -/
def takeDigits : List Char → List Char × List Char
  | [] => ([], [])
  | c :: cs =>
    if (digitVal c).isSome then ((takeDigits cs).1.cons c, (takeDigits cs).2)
    else ([], c :: cs)

/-- Value of a hexadecimal digit. -/
def hexVal (c : Char) : Option Nat :=
  let n := c.toNat
  if 48 ≤ n ∧ n ≤ 57 then some (n - 48)
  else if 97 ≤ n ∧ n ≤ 102 then some (n - 87)
  else if 65 ≤ n ∧ n ≤ 70 then some (n - 55)
  else none

/-- Four hexadecimal digits as a UTF-16 code unit (`getu4` after the `\u`). -/
def getu4 : List Char → Option (Nat × List Char)
  | a :: b :: c :: d :: rest =>
    match hexVal a, hexVal b, hexVal c, hexVal d with
    | some x, some y, some z, some w => some (((x * 16 + y) * 16 + z) * 16 + w, rest)
    | _, _, _, _ => none
  | _ => none

/-- The low half of a surrogate pair written as a second `\u` escape. -/
def lowSurrogate : List Char → Option (Nat × List Char)
  | bs :: u :: rest =>
    if bs.toNat = 92 ∧ u = 'u' then
      match getu4 rest with
      | some (r1, rest1) => if 0xDC00 ≤ r1 ∧ r1 < 0xE000 then some (r1, rest1) else none
      | none => none
    else none
  | _ => none

/-- The body of a string literal after the opening quote, unquoted as
`unquote` does: escapes are replaced, a surrogate pair is combined, a lone
surrogate becomes U+FFFD, and a control character ends the parse in error. -/
def parseStringBody : Nat → List Char → List Char → Option (String × List Char)
  | 0, _, _ => none
  | _ + 1, [], _ => none
  | fuel + 1, c :: rest, acc =>
    if c = '"' then some (String.mk acc, rest)
    else if c.toNat < 32 then none
    else if c.toNat = 92 then
      match rest with
      | [] => none
      | e :: rest1 =>
        if e = 'u' then
          match getu4 rest1 with
          | none => none
          | some (rr, rest2) =>
            if 0xD800 ≤ rr ∧ rr < 0xE000 then
              match lowSurrogate rest2 with
              | some (r1, rest3) =>
                if rr < 0xDC00 then
                  parseStringBody fuel rest3
                    (acc ++ [Char.ofNat ((rr - 0xD800) * 1024 + (r1 - 0xDC00) + 0x10000)])
                else parseStringBody fuel rest2 (acc ++ [Char.ofNat 0xFFFD])
              | none => parseStringBody fuel rest2 (acc ++ [Char.ofNat 0xFFFD])
            else parseStringBody fuel rest2 (acc ++ [Char.ofNat rr])
        else if e = '"' ∨ e.toNat = 92 ∨ e = '/' then parseStringBody fuel rest1 (acc ++ [e])
        else if e = 'b' then parseStringBody fuel rest1 (acc ++ [Char.ofNat 8])
        else if e = 'f' then parseStringBody fuel rest1 (acc ++ [Char.ofNat 12])
        else if e = 'n' then parseStringBody fuel rest1 (acc ++ [Char.ofNat 10])
        else if e = 'r' then parseStringBody fuel rest1 (acc ++ [Char.ofNat 13])
        else if e = 't' then parseStringBody fuel rest1 (acc ++ [Char.ofNat 9])
        else none
    else parseStringBody fuel rest (acc ++ [c])

/-- A string literal with its opening quote. -/
def parseStringLit (cs : List Char) : Option (String × List Char) :=
  match cs with
  | [] => none
  | c :: rest => if c = '"' then parseStringBody (rest.length + 1) rest [] else none

/-- The integer part of a number: `0`, or a non-zero digit and more digits. -/
def parseIntPart (cs : List Char) : Option (List Char × List Char) :=
  match cs with
  | [] => none
  | d :: rest =>
    if d = '0' then some ([d], rest)
    else if (digitVal d).isSome then some (d :: (takeDigits rest).1, (takeDigits rest).2)
    else none

/-- The optional fraction of a number: a point and at least one digit. -/
def parseFracPart (cs : List Char) : Option (List Char × List Char) :=
  match cs with
  | [] => some ([], [])
  | c :: rest =>
    if c = '.' then
      match takeDigits rest with
      | ([], _) => none
      | (ds, rest1) => some (c :: ds, rest1)
    else some ([], c :: rest)

/-- The optional exponent of a number: `e` or `E`, an optional sign and at
least one digit. -/
def parseExpPart (cs : List Char) : Option (List Char × List Char) :=
  match cs with
  | [] => some ([], [])
  | c :: rest =>
    if c = 'e' ∨ c = 'E' then
      match rest with
      | [] => none
      | sg :: rest1 =>
        if sg = '+' ∨ sg = '-' then
          match takeDigits rest1 with
          | ([], _) => none
          | (ds, rest2) => some (c :: sg :: ds, rest2)
        else
          match takeDigits rest with
          | ([], _) => none
          | (ds, rest2) => some (c :: ds, rest2)
    else some ([], c :: rest)

/-- A number literal: its text and the input left after it. -/
def parseNumber (cs : List Char) : Option (String × List Char) :=
  let signed : List Char × List Char :=
    match cs with
    | [] => ([], [])
    | c :: rest => if c = '-' then ([c], rest) else ([], c :: rest)
  match parseIntPart signed.2 with
  | none => none
  | some (ip, r1) =>
    match parseFracPart r1 with
    | none => none
    | some (fp, r2) =>
      match parseExpPart r2 with
      | none => none
      | some (ep, r3) => some (String.mk (signed.1 ++ ip ++ fp ++ ep), r3)

/-- Strip a fixed literal (`null`, `true`, `false`) from the input. -/
def stripLit : List Char → List Char → Option (List Char)
  | [], cs => some cs
  | _ :: _, [] => none
  | l :: ls, c :: cs => if l = c then stripLit ls cs else none

mutual
/-- One JSON value, after optional white space. -/
def parseValue : Nat → Nat → List Char → Option (JSON × List Char)
  | 0, _, _ => none
  | fuel + 1, depth, cs =>
    match skipWS cs with
    | [] => none
    | c :: rest =>
      if c = '{' then
        if depth + 1 > maxNestingDepth then none
        else
          match skipWS rest with
          | [] => none
          | d :: rest1 =>
            if d = '}' then some (JSON.obj [], rest1)
            else parseMembers fuel (depth + 1) (d :: rest1) []
      else if c = '[' then
        if depth + 1 > maxNestingDepth then none
        else
          match skipWS rest with
          | [] => none
          | d :: rest1 =>
            if d = ']' then some (JSON.arr [], rest1)
            else parseElements fuel (depth + 1) (d :: rest1) []
      else if c = '"' then
        match parseStringLit (c :: rest) with
        | some (s, rest1) => some (JSON.str s, rest1)
        | none => none
      else if c = '-' ∨ (digitVal c).isSome then
        match parseNumber (c :: rest) with
        | some (lit, rest1) => some (JSON.num lit, rest1)
        | none => none
      else if c = 'n' then (stripLit "null".data (c :: rest)).map (fun r => (JSON.null, r))
      else if c = 't' then (stripLit "true".data (c :: rest)).map (fun r => (JSON.bool true, r))
      else if c = 'f' then (stripLit "false".data (c :: rest)).map (fun r => (JSON.bool false, r))
      else none
/-- The elements of an array after its opening bracket, up to the closing one. -/
def parseElements : Nat → Nat → List Char → List JSON → Option (JSON × List Char)
  | 0, _, _, _ => none
  | fuel + 1, depth, cs, acc =>
    match parseValue fuel depth cs with
    | none => none
    | some (v, rest) =>
      match skipWS rest with
      | [] => none
      | d :: rest1 =>
        if d = ',' then parseElements fuel depth rest1 (acc ++ [v])
        else if d = ']' then some (JSON.arr (acc ++ [v]), rest1)
        else none
/-- The members of an object after its opening brace, up to the closing one. -/
def parseMembers : Nat → Nat → List Char → List (String × JSON) → Option (JSON × List Char)
  | 0, _, _, _ => none
  | fuel + 1, depth, cs, acc =>
    match parseStringLit (skipWS cs) with
    | none => none
    | some (k, rest) =>
      match skipWS rest with
      | [] => none
      | colon :: rest1 =>
        if colon = ':' then
          match parseValue fuel depth rest1 with
          | none => none
          | some (v, rest2) =>
            match skipWS rest2 with
            | [] => none
            | d :: rest3 =>
              if d = ',' then parseMembers fuel depth rest3 (acc ++ [(k, v)])
              else if d = '}' then some (JSON.obj (acc ++ [(k, v)]), rest3)
              else none
        else none
end

/-- A whole document (`checkValid` and the decoder's reading of it): one value
with white space around it and nothing else.  Each unit of fuel is spent on a
character of the input at most twice, so twice the length is enough. -/
def parseJSON (data : String) : Option JSON :=
  match parseValue (2 * data.length + 2) 0 data.data with
  | none => none
  | some (v, rest) =>
    match skipWS rest with
    | [] => some v
    | _ :: _ => none

/-! ## `encoding/json`: decoding into the two Go types the code uses -/

/-- The error envelope of the upstream service (`RequestAPIError`). -/
structure RequestAPIError where
  Code : Int
  Message : String
deriving DecidableEq, Repr

/-- Method `(*RequestAPIError).Error`. -/
def RequestAPIError.Error (r : RequestAPIError) : String :=
  "Code: " ++ Itoa r.Code ++ "; Message: " ++ r.Message

/-- Case folding of one rune of an object key, up to runes whose fold is not
ASCII: besides the ASCII letters only U+017F and U+212A fold to an ASCII
letter. -/
def foldRune (c : Char) : Char :=
  let n := c.toNat
  if 97 ≤ n ∧ n ≤ 122 then Char.ofNat (n - 32)
  else if n = 0x17F then 'S'
  else if n = 0x212A then 'K'
  else c

/-- Case folding of an object key, used to find the struct field it names. -/
def foldName (s : String) : String := String.mk (s.data.map foldRune)

/-- Store a value into the field `Code`: an integer literal that fits `int`
is stored, `null` leaves the field as it is, any other value is a type error
(`none`). -/
def storeCode (e : RequestAPIError) : JSON → Option RequestAPIError
  | JSON.null => some e
  | JSON.num lit =>
    match ParseInt lit 64 with
    | some n => some { e with Code := n }
    | none => none
  | JSON.bool _ => none
  | JSON.str _ => none
  | JSON.arr _ => none
  | JSON.obj _ => none

/-- Store a value into the field `Message`: a string is stored, `null` leaves
the field as it is, any other value is a type error (`none`). -/
def storeMessage (e : RequestAPIError) : JSON → Option RequestAPIError
  | JSON.null => some e
  | JSON.str m => some { e with Message := m }
  | JSON.bool _ => none
  | JSON.num _ => none
  | JSON.arr _ => none
  | JSON.obj _ => none

/-- Store one member of an object into a `RequestAPIError`: the key is matched
against the field names `code` and `message` under case folding, and a key that
names no field is skipped. -/
def storeField (e : RequestAPIError) (key : String) (v : JSON) : Option RequestAPIError :=
  if foldName key = "CODE" then storeCode e v
  else if foldName key = "MESSAGE" then storeMessage e v
  else some e

/-- Store the members of an object in the order they are written. -/
def storeFields : List (String × JSON) → RequestAPIError → Option RequestAPIError
  | [], e => some e
  | (k, v) :: rest, e =>
    match storeField e k v with
    | some e1 => storeFields rest e1
    | none => none

/-- Decode a JSON value into a `RequestAPIError`: `null` changes nothing, an
object stores its members, every other value is a type error. -/
def decodeRequestAPIError (e : RequestAPIError) : JSON → Option RequestAPIError
  | JSON.null => some e
  | JSON.obj kvs => storeFields kvs e
  | JSON.bool _ => none
  | JSON.num _ => none
  | JSON.str _ => none
  | JSON.arr _ => none

/-- The call `json.Unmarshal(content, &reqErr)` on `reqErr := RequestAPIError{}`:
`none` when it returns an error, the decoded envelope otherwise. -/
def unmarshalRequestAPIError (content : String) : Option RequestAPIError :=
  match parseJSON content with
  | none => none
  | some v => decodeRequestAPIError { Code := 0, Message := "" } v

/-- The state of `decimal.set` over the mantissa of a literal: the digits
kept (at most 800, leading zeros dropped), their count, the position of the
decimal point, and whether a point was seen. -/
structure Decimal where
  d : Nat
  nd : Nat
  dp : Int
  sawdot : Bool

/-- One character of the mantissa in `decimal.set`. -/
def Decimal.step (st : Decimal) (c : Char) : Decimal :=
  if c = '.' then { st with sawdot := true, dp := st.nd }
  else if c = '0' ∧ st.nd = 0 then { st with dp := st.dp - 1 }
  else if st.nd < 800 then { st with d := st.d * 10 + (digitVal c).getD 0, nd := st.nd + 1 }
  else st

/-- The exponent digits as `decimal.set` accumulates them: a digit is added
only while the value is below 10000. -/
def expClamp : List Char → Nat → Nat
  | [], e => e
  | c :: cs, e => expClamp cs (if e < 10000 then e * 10 + (digitVal c).getD 0 else e)

/-- The signed exponent of a literal from the `e` on, zero when absent. -/
def expOf (cs : List Char) : Int :=
  match cs with
  | [] => 0
  | _ :: rest =>
    match rest with
    | [] => 0
    | sg :: rest1 =>
      if sg = '-' then -((expClamp rest1 0 : Nat) : Int)
      else if sg = '+' then ((expClamp rest1 0 : Nat) : Int)
      else ((expClamp rest 0 : Nat) : Int)

/-- The least magnitude that rounds to infinity in `float64`, which is
`2 ^ 1024 - 2 ^ 970`. -/
def float64Overflow : Nat :=
  179769313486231580793728971405303415079934132710037826936173778980444968292764750946649017977587207096330286416692887910946555547851940402630657488671505820681908902000708383676273854845817711531764475730270069855571366959622842914819860834936475292719074168444365510704342711559699508093042880177904174497792

/-- Powers of ten. -/
def pow10 : Nat → Nat
  | 0 => 1
  | n + 1 => 10 * pow10 n

/-- Whether `strconv.ParseFloat(lit, 64)` returns a range error on a JSON
number literal: the decimal read by `decimal.set` rounds to infinity. -/
def floatRangeError (lit : String) : Bool :=
  let body : List Char :=
    match lit.data with
    | [] => []
    | c :: rest => if c = '-' then rest else c :: rest
  let mant := body.takeWhile (fun c => ¬ (c = 'e' ∨ c = 'E'))
  let tail := body.dropWhile (fun c => ¬ (c = 'e' ∨ c = 'E'))
  let st := mant.foldl Decimal.step { d := 0, nd := 0, dp := 0, sawdot := false }
  let dp : Int := (if st.sawdot then st.dp else (st.nd : Int)) + expOf tail
  if st.nd = 0 then false
  else if dp > 310 then true
  else if dp < -330 then false
  else if dp - st.nd ≥ 0 then st.d * pow10 (dp - st.nd).toNat ≥ float64Overflow
  else st.d ≥ float64Overflow * pow10 (st.nd - dp).toNat

mutual
/-- Whether decoding a value into `interface{}` records an error: some number
in it is out of the range of `float64`. -/
def hasRangeError : JSON → Bool
  | JSON.null => false
  | JSON.bool _ => false
  | JSON.num lit => floatRangeError lit
  | JSON.str _ => false
  | JSON.arr xs => hasRangeErrorList xs
  | JSON.obj kvs => hasRangeErrorFields kvs
/-- The elements of an array. -/
def hasRangeErrorList : List JSON → Bool
  | [] => false
  | x :: xs => hasRangeError x || hasRangeErrorList xs
/-- The members of an object. -/
def hasRangeErrorFields : List (String × JSON) → Bool
  | [] => false
  | (_, v) :: rest => hasRangeError v || hasRangeErrorFields rest
end

/-- Decode a JSON value into a nil `map[string]interface{}`: `none` is an
error; `some none` is the map left nil, for `null`; `some (some kvs)` is the
map made from the members of an object. -/
def decodeMap : JSON → Option (Option (List (String × JSON)))
  | JSON.null => some none
  | JSON.obj kvs => if hasRangeErrorFields kvs then none else some (some kvs)
  | JSON.bool _ => none
  | JSON.num _ => none
  | JSON.str _ => none
  | JSON.arr _ => none

/-- The call `json.Unmarshal(body, &jsn)` on a nil `map[string]interface{}`:
`none` when it returns an error, the map otherwise. -/
def unmarshalMap (body : String) : Option (Option (List (String × JSON))) :=
  match parseJSON body with
  | none => none
  | some v => decodeMap v

/-- Map index `jsn[key]` on the decoded members: of several members with the
same key the last one written is the one stored. -/
def mapIndex : List (String × JSON) → String → Option JSON
  | [], _ => none
  | (k, v) :: rest, key =>
    match mapIndex rest key with
    | some w => some w
    | none => if k = key then some v else none

/-- The type assertion `v.(string)` with the comma-ok form on the value a map
index gives. -/
def assertString : Option JSON → String × Bool
  | some (JSON.str t) => (t, true)
  | some JSON.null => ("", false)
  | some (JSON.bool _) => ("", false)
  | some (JSON.num _) => ("", false)
  | some (JSON.arr _) => ("", false)
  | some (JSON.obj _) => ("", false)
  | none => ("", false)

/-- The expression `jsn["guest_token"].(string)` with the comma-ok form: the
string and `true`, or the empty string and `false`; a nil map has no member. -/
def guestTokenField (jsn : Option (List (String × JSON))) : String × Bool :=
  match jsn with
  | none => ("", false)
  | some kvs => assertString (mapIndex kvs "guest_token")

/-! ## `api.go` -/

/-- The constant `bearerToken`. -/
def bearerToken : String :=
  "AAAAAAAAAAAAAAAAAAAAAPYXBAAAAAAACLXUNDekMxqa8h%2F40K4moUkGsoc%3DTYfbDKbT3jJPCEVnMYqilB28NHfOPqkca3qaAxGfsyKCs0wRbw"

/-- The struct `ResponseAPIHeaders`. -/
structure ResponseAPIHeaders where
  XRateLimitReset : Int
  XRateLimitLimit : Int
  XRateLimitRemaining : Int
deriving DecidableEq, Repr

/-- The values of Go's `error` that the code returns: a text error
(`errors.New`, `fmt.Errorf`) with its text, a `*RequestAPIError`, the error of
`client.Do`, the error of `io.ReadAll`, the error of `json.Unmarshal` on the
issuance body, and whatever error decoding into the caller's target gives. -/
inductive Error where
  | text (msg : String)
  | api (e : RequestAPIError)
  | transport (msg : String)
  | read (msg : String)
  | unmarshal
  | target (msg : String)
deriving DecidableEq, Repr

/-- The values of `SearchMode` that `search.go` names, and any other value. -/
inductive SearchMode where
  | SearchLatest
  | SearchPhotos
  | SearchVideos
  | SearchUsers
  | other
deriving DecidableEq, Repr

/-- The fields of `Scraper` that the two files read or write, the wait group
and the HTTP client apart. -/
structure Scraper where
  bearerToken : String
  guestToken : String
  guestCreatedAt : Int
  delay : Int
  isLogged : Bool
  includeReplies : Bool
  searchMode : SearchMode
deriving DecidableEq, Repr

/-- What one call observes of the world: the reading of `time.Now()` in
`RequestAPI` and the one in `GetGuestToken`, the outcome of `s.client.Do` for
the issuance request and for the request itself (a transport error or a
response), and what `s.client.Jar.Cookies` gives for a URL; the client is
taken to have a jar. -/
structure Env where
  now : Int
  issuedNow : Int
  doIssue : Request → Except String Response
  cookies : String → List Cookie
  doRequest : Request → Except String Response

/-- The calls a run makes, in order: `s.wg.Wait()`, entry into `GetGuestToken`,
`s.client.Do(req)`, `log.Println` of the request, and the deferred
`s.wg.Add(1)` with its goroutine that sleeps `delay` seconds before
`s.wg.Done()`. -/
inductive Event where
  | wgWait
  | getGuestToken
  | clientDo (req : Request)
  | logPrintln (req : Request)
  | release (delay : Int)
deriving DecidableEq, Repr

/-- The duration `time.Hour`, in nanoseconds. -/
def Hour : Int := 3600 * 1000000000

/-- Modelled from the spec: method `IsGuestToken` is not in the two source
files; "a credential exists" is read as a stored token that is not empty. -/
def Scraper.IsGuestToken (s : Scraper) : Bool := s.guestToken ≠ ""

/-- The request `GetGuestToken` builds. -/
def guestActivateRequest (s : Scraper) : Request :=
  { Method := "POST"
    URL := "https://api.twitter.com/1.1/guest/activate.json"
    Query := []
    Header := Header.Set [] "Authorization" ("Bearer " ++ s.bearerToken) }

/-- What `GetGuestToken` returns and leaves behind. -/
structure GuestResult where
  err : Option Error
  scraper : Scraper
  trace : List Event
deriving DecidableEq, Repr

/-- Method `Scraper.GetGuestToken`.  `http.NewRequest` cannot fail on the
constant method and URL. -/
def GetGuestToken (env : Env) (s : Scraper) : GuestResult :=
  let req := guestActivateRequest s
  let tr := [Event.getGuestToken, Event.clientDo req]
  match env.doIssue req with
  | Except.error e => { err := some (Error.transport e), scraper := s, trace := tr }
  | Except.ok resp =>
    match resp.BodyErr with
    | some e => { err := some (Error.read e), scraper := s, trace := tr }
    | none =>
      if resp.StatusCode ≠ 200 then
        { err := some (Error.text ("response status " ++ resp.Status ++ ": " ++ resp.Body))
          scraper := s, trace := tr }
      else
        match unmarshalMap resp.Body with
        | none => { err := some Error.unmarshal, scraper := s, trace := tr }
        | some jsn =>
          let s1 := { s with guestToken := (guestTokenField jsn).1 }
          if ¬ (guestTokenField jsn).2 then
            { err := some (Error.text "guest_token not found"), scraper := s1, trace := tr }
          else
            { err := none, scraper := { s1 with guestCreatedAt := env.issuedNow }, trace := tr }

/-- The loop over the cookies of the jar: the value of the first cookie named
`ct0`. -/
def csrfCookie : List Cookie → Option String
  | [] => none
  | c :: cs => if c.Name = "ct0" then some c.Value else csrfCookie cs

/-- The three header writes of `RequestAPI` on the request. -/
def attachCredentials (s : Scraper) (cookies : List Cookie) (req : Request) : Request :=
  let h1 := Header.Set req.Header "Authorization" ("Bearer " ++ s.bearerToken)
  let h2 := Header.Set h1 "X-Guest-Token" s.guestToken
  match csrfCookie cookies with
  | some v => { req with Header := Header.Set h2 "X-CSRF-Token" v }
  | none => { req with Header := h2 }

/-- One round of the loop over the response header: a name that is one of the
three rate-limit names in lower case has its first value parsed into the
matching field; `none` is the `return` taken when the value does not parse. -/
def rateLimitStep (h : ResponseAPIHeaders) (header : String) (values : List String) :
    Option ResponseAPIHeaders :=
  let name := toLower header
  if name = "x-rate-limit-limit" ∨ name = "x-rate-limit-reset" ∨
      name = "x-rate-limit-remaining" then
    if name = "x-rate-limit-limit" then
      match values with
      | [] => some h
      | v :: _ =>
        match Atoi v with
        | none => none
        | some limit => some { h with XRateLimitLimit := limit }
    else if name = "x-rate-limit-reset" then
      match values with
      | [] => some h
      | v :: _ =>
        match ParseInt v 64 with
        | none => none
        | some limit => some { h with XRateLimitReset := limit }
    else if name = "x-rate-limit-remaining" then
      match values with
      | [] => some h
      | v :: _ =>
        match Atoi v with
        | none => none
        | some limit => some { h with XRateLimitRemaining := limit }
    else some h
  else some h

/-- The loop `for header, values := range resp.Header`, in the order of the
list. -/
def rateLimitLoop : Header → ResponseAPIHeaders → Option ResponseAPIHeaders
  | [], h => some h
  | (header, values) :: rest, h =>
    match rateLimitStep h header values with
    | none => none
    | some h1 => rateLimitLoop rest h1

/-- What `RequestAPI` returns and leaves behind: the two results, the target
and the request it was handed (both are written through a pointer), the
scraper, and the calls made. -/
structure APIResult (τ : Type) where
  headers : Option ResponseAPIHeaders
  err : Option Error
  target : τ
  req : Request
  scraper : Scraper
  trace : List Event

/-- The part of `RequestAPI` from the response on.  The variable `err` is the
error of `s.client.Do`, which is nil here; it is what the three `return nil,
err` of the header loop return. -/
def handleResponse {τ : Type} (unmarshal : String → τ → τ × Option Error)
    (resp : Response) (target : τ) : Option ResponseAPIHeaders × Option Error × τ :=
  let err : Option Error := none
  if resp.StatusCode ≠ 200 ∧ resp.StatusCode ≠ 403 then
    match unmarshalRequestAPIError resp.Body with
    | none => (none, some (Error.text resp.Body), target)
    | some reqErr => (none, some (Error.api reqErr), target)
  else
    match rateLimitLoop resp.Header
        { XRateLimitReset := 0, XRateLimitLimit := 0, XRateLimitRemaining := 0 } with
    | none => (none, err, target)
    | some requestAPIHeaders =>
      match resp.BodyErr with
      | some e => (none, some (Error.read e), target)
      | none =>
        (some requestAPIHeaders, (unmarshal resp.Body target).2, (unmarshal resp.Body target).1)

/-- The credential check of `RequestAPI`: `GetGuestToken` is called when
there is no guest token or when the token was created before
`time.Now().Add(-time.Hour*3)`. -/
def ensureGuestToken (env : Env) (s : Scraper) : GuestResult :=
  if ¬ s.IsGuestToken ∨ s.guestCreatedAt < env.now + (-Hour) * 3 then GetGuestToken env s
  else { err := none, scraper := s, trace := [] }

/-- The request as `RequestAPI` hands it to `s.client.Do`. -/
def sentRequest (env : Env) (s : Scraper) (req : Request) : Request :=
  attachCredentials (ensureGuestToken env s).scraper (env.cookies req.URL) req

/-- The body of `RequestAPI` between `s.wg.Wait()` and the deferred release.
The argument `unmarshal` is `json.Unmarshal(b, target)` for the type of the
caller's target: the target after the call and the error. -/
def requestAPIBody {τ : Type} (env : Env) (unmarshal : String → τ → τ × Option Error)
    (s : Scraper) (req : Request) (target : τ) : APIResult τ :=
  match (ensureGuestToken env s).err with
  | some e =>
    { headers := none, err := some e, target := target, req := req
      scraper := (ensureGuestToken env s).scraper, trace := (ensureGuestToken env s).trace }
  | none =>
    match env.doRequest (sentRequest env s req) with
    | Except.error e =>
      { headers := none, err := some (Error.transport e), target := target
        req := sentRequest env s req, scraper := (ensureGuestToken env s).scraper
        trace := (ensureGuestToken env s).trace ++ [Event.clientDo (sentRequest env s req)] }
    | Except.ok resp =>
      { headers := (handleResponse unmarshal resp target).1
        err := (handleResponse unmarshal resp target).2.1
        target := (handleResponse unmarshal resp target).2.2
        req := sentRequest env s req, scraper := (ensureGuestToken env s).scraper
        trace := (ensureGuestToken env s).trace ++ [Event.clientDo (sentRequest env s req)] }

/-- Method `Scraper.RequestAPI`: wait on the wait group, run the body, and,
when the delay is positive, run the deferred release on every return. -/
def RequestAPI {τ : Type} (env : Env) (unmarshal : String → τ → τ × Option Error)
    (s : Scraper) (req : Request) (target : τ) : APIResult τ :=
  let r := requestAPIBody env unmarshal s req target
  { r with
    trace := Event.wgWait :: r.trace ++
      (if s.delay > 0 then [Event.release r.scraper.delay] else []) }

/-! ## `search.go` -/

/-- The parts of the package that the two files call and do not define: the
zero value of `timeline` and `json.Unmarshal` into it, `s.newRequest`, and the
two parsers of a timeline.  A nil slice is `none`. -/
structure Package (τ Tweet Profile : Type) where
  zeroTimeline : τ
  unmarshal : String → τ → τ × Option Error
  newRequest : Scraper → String → String → Except Error Request
  parseTweets : τ → Option (List Tweet) × String
  parseUsers : τ → Option (List Profile) × String

/-- The query values `getSearchTimeline` adds, in the order of the calls. -/
def searchQuery (s : Scraper) (query : String) (maxNbr : Int) (cursor : String) :
    List (String × String) :=
  [("include_profile_interstitial_type", "1"),
   ("include_blocking", "1"),
   ("include_blocked_by", "1"),
   ("include_followed_by", "1"),
   ("include_want_retweets", "1"),
   ("include_mute_edge", "1"),
   ("include_can_dm", "1"),
   ("include_can_media_tag", "1"),
   ("include_ext_has_nft_avatar", "1"),
   ("include_ext_is_blue_verified", "1"),
   ("include_ext_verified_type", "1"),
   ("skip_status", "1"),
   ("cards_platform", "Web-12"),
   ("include_cards", "1"),
   ("include_ext_alt_text", "true"),
   ("include_ext_limited_action_results", "false"),
   ("include_quote_count", "true"),
   ("include_reply_count", "1"),
   ("tweet_mode", "extended"),
   ("include_ext_collab_control", "true"),
   ("include_ext_views", "true"),
   ("include_entities", "true"),
   ("include_user_entities", "true"),
   ("include_ext_media_color", "true"),
   ("include_ext_media_availability", "true"),
   ("include_ext_sensitive_media_warning", "true"),
   ("include_ext_trusted_friends_metadata", "true"),
   ("send_error_codes", "true"),
   ("simple_quoted_tweet", "true"),
   ("include_tweet_replies", FormatBool s.includeReplies),
   ("ext", "mediaStats,highlightedLabel,hasNftAvatar,voiceInfo,birdwatchPivot,enrichments,superFollowMetadata,unmentionInfo,editControl,collab_control,vibe"),
   ("q", query),
   ("count", Itoa maxNbr),
   ("query_source", "typed_query"),
   ("requestContext", "launch"),
   ("spelling_corrections", "1"),
   ("include_ext_edit_control", "true")] ++
  (if cursor ≠ "" then [("cursor", cursor)] else []) ++
  (if s.searchMode = SearchMode.SearchLatest then [("pc", "0")] else [("pc", "1")]) ++
  (match s.searchMode with
   | SearchMode.SearchLatest => [("tweet_search_mode", "live")]
   | SearchMode.SearchPhotos => [("result_filter", "image")]
   | SearchMode.SearchVideos => [("result_filter", "video")]
   | SearchMode.SearchUsers => [("result_filter", "user")]
   | SearchMode.other => [])

/-- The query values `getSearchTimelineWithResponseHeaders` adds. -/
def searchQueryWithResponseHeaders (s : Scraper) (query : String) (maxNbr : Int)
    (cursor : String) : List (String × String) :=
  [("q", query),
   ("count", Itoa maxNbr),
   ("query_source", "typed_query"),
   ("pc", "1"),
   ("requestContext", "launch"),
   ("spelling_corrections", "1"),
   ("include_ext_edit_control", "true")] ++
  (if cursor ≠ "" then [("cursor", cursor)] else []) ++
  (match s.searchMode with
   | SearchMode.SearchLatest => [("f", "live")]
   | SearchMode.SearchPhotos => [("result_filter", "image")]
   | SearchMode.SearchVideos => [("result_filter", "video")]
   | SearchMode.SearchUsers => [("result_filter", "user")]
   | SearchMode.other => [])

/-- What a search call returns and leaves behind. -/
structure Run (α : Type) where
  val : α
  scraper : Scraper
  trace : List Event

/-- Method `Scraper.getSearchTimeline`: the timeline (nil as `none`) and the
error.  `http.NewRequest` cannot fail on the constant method and URL. -/
def getSearchTimeline {τ Tweet Profile : Type} (pkg : Package τ Tweet Profile) (env : Env)
    (s : Scraper) (query : String) (maxNbr : Int) (cursor : String) :
    Run (Option τ × Option Error) :=
  if ¬ s.isLogged then
    { val := (none, some (Error.text "scraper is not logged in for search"))
      scraper := s, trace := [] }
  else
    let maxNbr1 := if maxNbr > 50 then 50 else maxNbr
    let req : Request :=
      { Method := "GET", URL := "https://twitter.com/i/api/2/search/adaptive.json"
        Query := searchQuery s query maxNbr1 cursor, Header := [] }
    let r := RequestAPI env pkg.unmarshal s req pkg.zeroTimeline
    match r.err with
    | some e =>
      { val := (none, some e), scraper := r.scraper, trace := Event.logPrintln req :: r.trace }
    | none =>
      { val := (some r.target, none), scraper := r.scraper
        trace := Event.logPrintln req :: r.trace }

/-- Method `Scraper.getSearchTimelineWithResponseHeaders`: the timeline, the
response headers and the error. -/
def getSearchTimelineWithResponseHeaders {τ Tweet Profile : Type}
    (pkg : Package τ Tweet Profile) (env : Env)
    (s : Scraper) (query : String) (maxNbr : Int) (cursor : String) :
    Run (Option τ × Option ResponseAPIHeaders × Option Error) :=
  if ¬ s.isLogged then
    { val := (none, none, some (Error.text "scraper is not logged in for search"))
      scraper := s, trace := [] }
  else
    let maxNbr1 := if maxNbr > 50 then 50 else maxNbr
    match pkg.newRequest s "GET" "https://twitter.com/i/api/2/search/adaptive.json" with
    | Except.error e => { val := (none, none, some e), scraper := s, trace := [] }
    | Except.ok req0 =>
      let req : Request :=
        { req0 with
          Query := req0.Query ++ searchQueryWithResponseHeaders s query maxNbr1 cursor }
      let r := RequestAPI env pkg.unmarshal s req pkg.zeroTimeline
      match r.err with
      | some e => { val := (none, none, some e), scraper := r.scraper, trace := r.trace }
      | none =>
        { val := (some r.target, r.headers, none), scraper := r.scraper, trace := r.trace }

/-- Method `Scraper.FetchSearchTweets`: the tweets, the next cursor and the
error.  The timeline is never nil when the error is nil, so the default taken
for a nil timeline is never used. -/
def FetchSearchTweets {τ Tweet Profile : Type} (pkg : Package τ Tweet Profile) (env : Env)
    (s : Scraper) (query : String) (maxTweetsNbr : Int) (cursor : String) :
    Run (Option (List Tweet) × String × Option Error) :=
  let r := getSearchTimeline pkg env s query maxTweetsNbr cursor
  match r.val with
  | (_, some e) => { val := (none, "", some e), scraper := r.scraper, trace := r.trace }
  | (timeline, none) =>
    let t := timeline.getD pkg.zeroTimeline
    { val := ((pkg.parseTweets t).1, (pkg.parseTweets t).2, none)
      scraper := r.scraper, trace := r.trace }

/-- Method `Scraper.FetchSearchTweetsWithResponseHeaders`: the tweets, the
next cursor, the response headers and the error. -/
def FetchSearchTweetsWithResponseHeaders {τ Tweet Profile : Type}
    (pkg : Package τ Tweet Profile) (env : Env)
    (s : Scraper) (query : String) (maxTweetsNbr : Int) (cursor : String) :
    Run (Option (List Tweet) × String × Option ResponseAPIHeaders × Option Error) :=
  let r := getSearchTimelineWithResponseHeaders pkg env s query maxTweetsNbr cursor
  match r.val with
  | (_, _, some e) =>
    { val := (none, "", none, some e), scraper := r.scraper, trace := r.trace }
  | (timeline, responseHeaders, none) =>
    let t := timeline.getD pkg.zeroTimeline
    { val := ((pkg.parseTweets t).1, (pkg.parseTweets t).2, responseHeaders, none)
      scraper := r.scraper, trace := r.trace }

/-- Method `Scraper.FetchSearchProfiles`: the profiles, the next cursor and the
error. -/
def FetchSearchProfiles {τ Tweet Profile : Type} (pkg : Package τ Tweet Profile) (env : Env)
    (s : Scraper) (query : String) (maxProfilesNbr : Int) (cursor : String) :
    Run (Option (List Profile) × String × Option Error) :=
  let r := getSearchTimeline pkg env s query maxProfilesNbr cursor
  match r.val with
  | (_, some e) => { val := (none, "", some e), scraper := r.scraper, trace := r.trace }
  | (timeline, none) =>
    let t := timeline.getD pkg.zeroTimeline
    { val := ((pkg.parseUsers t).1, (pkg.parseUsers t).2, none)
      scraper := r.scraper, trace := r.trace }

/-! ## Sample data -/

/-- A scraper holding a guest token created at instant zero. -/
def sampleScraper : Scraper :=
  { bearerToken := bearerToken, guestToken := "1234567890", guestCreatedAt := 0, delay := 0
    isLogged := true, includeReplies := false, searchMode := SearchMode.SearchLatest }

/-- A world at instant `now` whose transport gives `issue` to the issuance
request and `resp` to every other request, with `cookies` in the jar. -/
def sampleEnv (now : Int) (issue : Except String Response) (cookies : List Cookie)
    (resp : Except String Response) : Env :=
  { now := now, issuedNow := now, doIssue := fun _ => issue, cookies := fun _ => cookies
    doRequest := fun _ => resp }

/-- A target of type `String` whose decoder stores the body text and rejects
the empty body. -/
def storeBody (body : String) (target : String) : String × Option Error :=
  if body = "" then (target, some (Error.target "unexpected end of JSON input"))
  else (body, none)

/-- A package around `storeBody`: the timeline is the body text, a tweet or a
profile is a string. -/
def samplePackage : Package String String String :=
  { zeroTimeline := ""
    unmarshal := storeBody
    newRequest := fun _ method url =>
      Except.ok { Method := method, URL := url, Query := [], Header := [] }
    parseTweets := fun t => (some [t], "")
    parseUsers := fun t => (some [t], "") }

/-- A plain request. -/
def sampleRequest : Request :=
  { Method := "GET", URL := "https://twitter.com/i/api/2/search/adaptive.json", Query := []
    Header := [] }

/-- The rate-limit response of the upstream service. -/
def rateLimited : Response :=
  { StatusCode := 429, Status := "429 Too Many Requests", Header := []
    Body := "\x7b\"code\":88,\"message\":\"Rate limit exceeded\"\x7d", BodyErr := none }

/-- An issuance response with status 200 and the given body. -/
def issued (body : String) : Response :=
  { StatusCode := 200, Status := "200 OK", Header := [], Body := body, BodyErr := none }

/-- A response with the given status, one header and the body `{"ok":true}`. -/
def answered (status : Int) (name value : String) : Response :=
  { StatusCode := status, Status := "", Header := [(name, [value])], Body := "\x7b\"ok\":true\x7d"
    BodyErr := none }

/-! ## The snapshot as the specification words it -/

/-- The three rate-limit header names, in lower case. -/
def rateLimitNames : List String :=
  ["x-rate-limit-limit", "x-rate-limit-reset", "x-rate-limit-remaining"]

/-- A header entry is unparsable: its name is a rate-limit name up to case and
its first value is not an integer. -/
def unparsable (e : String × List String) : Bool :=
  decide (toLower e.1 ∈ rateLimitNames) &&
    (match e.2 with
     | [] => false
     | v :: _ => (ParseInt v 64).isNone)

/-- The integer in the first of the values, or `d` when there is no value or
the first is not an integer. -/
def firstInt (values : List String) (d : Int) : Int :=
  match values with
  | [] => d
  | v :: _ => (ParseInt v 64).getD d

/-- The field for a header name: the integer in the first value of the header
whose name matches in lower case, or `d` when the header is absent or its value
is not an integer. -/
def headerField (h : Header) (name : String) (d : Int) : Int :=
  match h.find? (fun e => toLower e.1 = name) with
  | some e => firstInt e.2 d
  | none => d

/-- The snapshot of a response header, each field defaulting to zero. -/
def snapshotOf (h : Header) : ResponseAPIHeaders :=
  { XRateLimitReset := headerField h "x-rate-limit-reset" 0
    XRateLimitLimit := headerField h "x-rate-limit-limit" 0
    XRateLimitRemaining := headerField h "x-rate-limit-remaining" 0 }

/-! ## Theorems -/

/-- The wait and the release around the body change neither result nor state. -/
theorem RequestAPI_fields {τ : Type} (env : Env) (unmarshal : String → τ → τ × Option Error)
    (s : Scraper) (req : Request) (target : τ) :
    (RequestAPI env unmarshal s req target).headers
        = (requestAPIBody env unmarshal s req target).headers ∧
    (RequestAPI env unmarshal s req target).err
        = (requestAPIBody env unmarshal s req target).err ∧
    (RequestAPI env unmarshal s req target).target
        = (requestAPIBody env unmarshal s req target).target ∧
    (RequestAPI env unmarshal s req target).req
        = (requestAPIBody env unmarshal s req target).req ∧
    (RequestAPI env unmarshal s req target).scraper
        = (requestAPIBody env unmarshal s req target).scraper :=
  ⟨rfl, rfl, rfl, rfl, rfl⟩

/-- Once the credential check passes and the transport answers, the results of
the body are those of `handleResponse`. -/
theorem requestAPIBody_of_response {τ : Type} (env : Env)
    (unmarshal : String → τ → τ × Option Error) (s : Scraper) (req : Request) (target : τ)
    (resp : Response) (hTok : (ensureGuestToken env s).err = none)
    (hDo : env.doRequest (sentRequest env s req) = Except.ok resp) :
    requestAPIBody env unmarshal s req target =
      { headers := (handleResponse unmarshal resp target).1
        err := (handleResponse unmarshal resp target).2.1
        target := (handleResponse unmarshal resp target).2.2
        req := sentRequest env s req, scraper := (ensureGuestToken env s).scraper
        trace := (ensureGuestToken env s).trace ++ [Event.clientDo (sentRequest env s req)] } := by
  unfold requestAPIBody
  rw [hTok]
  simp only [hDo]

/-- C1: when the response has a status other than 200 and 403, `RequestAPI`
returns no snapshot and an error and leaves the target as it was; the error is
the decoded `RequestAPIError` when the body decodes as one, so for a body that
is an object with an integer `code` and a string `message` it carries that code
and that message, and it is a text error holding the raw body when the body
does not decode. -/
theorem RequestAPI_error_status {τ : Type} (env : Env)
    (unmarshal : String → τ → τ × Option Error) (s : Scraper) (req : Request) (target : τ)
    (resp : Response) (hTok : (ensureGuestToken env s).err = none)
    (hDo : env.doRequest (sentRequest env s req) = Except.ok resp)
    (h200 : resp.StatusCode ≠ 200) (h403 : resp.StatusCode ≠ 403) :
    (RequestAPI env unmarshal s req target).headers = none ∧
    (RequestAPI env unmarshal s req target).err ≠ none ∧
    (RequestAPI env unmarshal s req target).target = target ∧
    (∀ e, unmarshalRequestAPIError resp.Body = some e →
      (RequestAPI env unmarshal s req target).err = some (Error.api e)) ∧
    (∀ lit m n, parseJSON resp.Body
        = some (JSON.obj [("code", JSON.num lit), ("message", JSON.str m)]) →
      ParseInt lit 64 = some n →
      (RequestAPI env unmarshal s req target).err
        = some (Error.api { Code := n, Message := m })) ∧
    (unmarshalRequestAPIError resp.Body = none →
      (RequestAPI env unmarshal s req target).err = some (Error.text resp.Body)) := by
  have hb := requestAPIBody_of_response env unmarshal s req target resp hTok hDo
  obtain ⟨f1, f2, f3, -, -⟩ := RequestAPI_fields env unmarshal s req target
  rw [f1, f2, f3, hb]
  have hr : handleResponse unmarshal resp target =
      match unmarshalRequestAPIError resp.Body with
      | none => (none, some (Error.text resp.Body), target)
      | some reqErr => (none, some (Error.api reqErr), target) := by
    unfold handleResponse
    simp [h200, h403]
  simp only [hr]
  refine ⟨?_, ?_, ?_, ?_, ?_, ?_⟩
  · cases unmarshalRequestAPIError resp.Body <;> rfl
  · cases unmarshalRequestAPIError resp.Body <;> simp
  · cases unmarshalRequestAPIError resp.Body <;> rfl
  · intro e he
    rw [he]
  · intro lit m n hp hn
    have : unmarshalRequestAPIError resp.Body = some { Code := n, Message := m } := by
      unfold unmarshalRequestAPIError
      rw [hp]
      have hc : foldName "code" = "CODE" := by decide
      have hm : foldName "message" = "MESSAGE" := by decide
      have hmc : ¬ foldName "message" = "CODE" := by decide
      simp [decodeRequestAPIError, storeFields, storeField, storeCode, storeMessage, hn, hc,
        hm, hmc]
    rw [this]
  · intro he
    rw [he]

/-- C1, at status 429 with the body `{"code":88,"message":"Rate limit
exceeded"}`: the error is the `RequestAPIError` with code 88 and that
message. -/
theorem RequestAPI_error_status_witness :
    (RequestAPI (sampleEnv 0 (Except.error "") [] (Except.ok rateLimited)) storeBody
        sampleScraper sampleRequest "").headers = none ∧
    (RequestAPI (sampleEnv 0 (Except.error "") [] (Except.ok rateLimited)) storeBody
        sampleScraper sampleRequest "").target = "" ∧
    (RequestAPI (sampleEnv 0 (Except.error "") [] (Except.ok rateLimited)) storeBody
        sampleScraper sampleRequest "").err
      = some (Error.api { Code := 88, Message := "Rate limit exceeded" }) :=
  have h := RequestAPI_error_status (sampleEnv 0 (Except.error "") [] (Except.ok rateLimited))
    storeBody sampleScraper sampleRequest "" rateLimited (by decide) (by rfl) (by decide)
    (by decide)
  ⟨h.1, h.2.2.1, h.2.2.2.1 _ (by decide)⟩

/-- C7: on a scraper that is not logged in, `getSearchTimeline` and
`getSearchTimelineWithResponseHeaders` return the error "scraper is not logged
in for search" with nil results, make no call (the trace is empty: no request
is built, `RequestAPI` is not entered, the transport is not used) and leave the
scraper as it was; `FetchSearchTweets` and `FetchSearchProfiles` return nil, the
empty cursor and that error, and `FetchSearchTweetsWithResponseHeaders` returns
them with nil response headers. -/
theorem search_not_logged_in {τ Tweet Profile : Type} (pkg : Package τ Tweet Profile)
    (env : Env) (s : Scraper) (query : String) (maxNbr : Int) (cursor : String)
    (h : s.isLogged = false) :
    getSearchTimeline pkg env s query maxNbr cursor =
      { val := (none, some (Error.text "scraper is not logged in for search"))
        scraper := s, trace := [] } ∧
    getSearchTimelineWithResponseHeaders pkg env s query maxNbr cursor =
      { val := (none, none, some (Error.text "scraper is not logged in for search"))
        scraper := s, trace := [] } ∧
    FetchSearchTweets pkg env s query maxNbr cursor =
      { val := (none, "", some (Error.text "scraper is not logged in for search"))
        scraper := s, trace := [] } ∧
    FetchSearchTweetsWithResponseHeaders pkg env s query maxNbr cursor =
      { val := (none, "", none, some (Error.text "scraper is not logged in for search"))
        scraper := s, trace := [] } ∧
    FetchSearchProfiles pkg env s query maxNbr cursor =
      { val := (none, "", some (Error.text "scraper is not logged in for search"))
        scraper := s, trace := [] } := by
  have h1 : getSearchTimeline pkg env s query maxNbr cursor =
      { val := (none, some (Error.text "scraper is not logged in for search"))
        scraper := s, trace := [] } := by
    unfold getSearchTimeline
    simp [h]
  have h2 : getSearchTimelineWithResponseHeaders pkg env s query maxNbr cursor =
      { val := (none, none, some (Error.text "scraper is not logged in for search"))
        scraper := s, trace := [] } := by
    unfold getSearchTimelineWithResponseHeaders
    simp [h]
  refine ⟨h1, h2, ?_, ?_, ?_⟩
  · unfold FetchSearchTweets
    simp only [h1]
  · unfold FetchSearchTweetsWithResponseHeaders
    simp only [h2]
  · unfold FetchSearchProfiles
    simp only [h1]

/-- C7, on the sample scraper logged out, whatever the transport would
answer. -/
theorem search_not_logged_in_witness :
    ({ sampleScraper with isLogged := false } : Scraper).isLogged = false ∧
    (FetchSearchTweets samplePackage (sampleEnv 0 (Except.error "") [] (Except.ok rateLimited))
        { sampleScraper with isLogged := false } "golang" 20 "").val
      = (none, "", some (Error.text "scraper is not logged in for search")) ∧
    (FetchSearchTweets samplePackage (sampleEnv 0 (Except.error "") [] (Except.ok rateLimited))
        { sampleScraper with isLogged := false } "golang" 20 "").trace = [] :=
  have h := search_not_logged_in samplePackage
    (sampleEnv 0 (Except.error "") [] (Except.ok rateLimited))
    { sampleScraper with isLogged := false } "golang" 20 "" rfl
  ⟨rfl, congrArg Run.val h.2.2.1, congrArg Run.trace h.2.2.1⟩

/-- A deleted key is no longer bound. -/
theorem Header.lookup_erase_same (h : Header) (key : String) :
    Header.lookup (Header.erase h key) key = none := by
  induction h with
  | nil => rfl
  | cons e rest ih =>
    obtain ⟨k, vs⟩ := e
    by_cases hk : k = key
    · simp [Header.erase, hk, ih]
    · simp [Header.erase, Header.lookup, hk, ih]

/-- Deleting a key leaves every other key as it was. -/
theorem Header.lookup_erase_ne (h : Header) (key other : String) (hne : other ≠ key) :
    Header.lookup (Header.erase h key) other = Header.lookup h other := by
  induction h with
  | nil => rfl
  | cons e rest ih =>
    obtain ⟨k, vs⟩ := e
    by_cases hk : k = key
    · subst hk
      have hko : ¬ k = other := fun h1 => hne h1.symm
      simp [Header.erase, Header.lookup, hko, ih]
    · by_cases hko : k = other
      · subst hko
        simp [Header.erase, Header.lookup, hk]
      · simp [Header.erase, Header.lookup, hk, hko, ih]

/-- After `Set`, the key is bound to the one value. -/
theorem Header.Values_Set_same (h : Header) (key value : String) :
    Header.Values (Header.Set h key value) key = some [value] := by
  simp [Header.Values, Header.Set, Header.lookup]

/-- A `Set` leaves the values of a key with another canonical form as they
were. -/
theorem Header.Values_Set_ne (h : Header) (key value other : String)
    (hne : CanonicalMIMEHeaderKey other ≠ CanonicalMIMEHeaderKey key) :
    Header.Values (Header.Set h key value) other = Header.Values h other := by
  have hne1 : ¬ CanonicalMIMEHeaderKey key = CanonicalMIMEHeaderKey other :=
    fun h1 => hne h1.symm
  simp [Header.Values, Header.Set, Header.lookup, hne1, Header.lookup_erase_ne _ _ _ hne]

/-- After `Set`, `Get` gives the value. -/
theorem Header.Get_Set_same (h : Header) (key value : String) :
    Header.Get (Header.Set h key value) key = value := by
  simp [Header.Get, Header.Set, Header.lookup]

/-- A `Set` leaves `Get` of a key with another canonical form as it was. -/
theorem Header.Get_Set_ne (h : Header) (key value other : String)
    (hne : CanonicalMIMEHeaderKey other ≠ CanonicalMIMEHeaderKey key) :
    Header.Get (Header.Set h key value) other = Header.Get h other := by
  have hne1 : ¬ CanonicalMIMEHeaderKey key = CanonicalMIMEHeaderKey other :=
    fun h1 => hne h1.symm
  simp [Header.Get, Header.Set, Header.lookup, hne1, Header.lookup_erase_ne _ _ _ hne]

/-- The cookie loop stops at the first cookie named `ct0`. -/
theorem csrfCookie_first (pre post : List Cookie) (c : Cookie)
    (hpre : ∀ x ∈ pre, x.Name ≠ "ct0") (hc : c.Name = "ct0") :
    csrfCookie (pre ++ c :: post) = some c.Value := by
  induction pre with
  | nil => simp [csrfCookie, hc]
  | cons x rest ih =>
    have hx : x.Name ≠ "ct0" := hpre x (List.mem_cons_self x rest)
    have hrest : ∀ y ∈ rest, y.Name ≠ "ct0" := fun y hy => hpre y (List.mem_cons_of_mem x hy)
    simp [csrfCookie, hx, ih hrest]

/-- The cookie loop finds nothing when no cookie is named `ct0`. -/
theorem csrfCookie_none (cookies : List Cookie) (h : ∀ c ∈ cookies, c.Name ≠ "ct0") :
    csrfCookie cookies = none := by
  induction cookies with
  | nil => rfl
  | cons x rest ih =>
    have hx : x.Name ≠ "ct0" := h x (List.mem_cons_self x rest)
    have hrest : ∀ y ∈ rest, y.Name ≠ "ct0" := fun y hy => h y (List.mem_cons_of_mem x hy)
    simp [csrfCookie, hx, ih hrest]

/-- The headers of a request after the credentials are attached. -/
theorem attachCredentials_headers (s : Scraper) (cookies : List Cookie) (req : Request) :
    (attachCredentials s cookies req).Header.Get "Authorization" = "Bearer " ++ s.bearerToken ∧
    (attachCredentials s cookies req).Header.Get "X-Guest-Token" = s.guestToken ∧
    (∀ v, csrfCookie cookies = some v →
      (attachCredentials s cookies req).Header.Get "X-CSRF-Token" = v) ∧
    (csrfCookie cookies = none →
      (attachCredentials s cookies req).Header.Values "X-CSRF-Token"
        = req.Header.Values "X-CSRF-Token") := by
  have hAG : CanonicalMIMEHeaderKey "Authorization" ≠ CanonicalMIMEHeaderKey "X-Guest-Token" := by
    decide
  have hAC : CanonicalMIMEHeaderKey "Authorization" ≠ CanonicalMIMEHeaderKey "X-CSRF-Token" := by
    decide
  have hGC : CanonicalMIMEHeaderKey "X-Guest-Token" ≠ CanonicalMIMEHeaderKey "X-CSRF-Token" := by
    decide
  unfold attachCredentials
  cases hcs : csrfCookie cookies with
  | none =>
    refine ⟨?_, ?_, ?_, ?_⟩
    · simp only [Header.Get_Set_ne _ _ _ _ hAG, Header.Get_Set_same]
    · simp only [Header.Get_Set_same]
    · intro v hv
      cases hv
    · intro _
      simp only [Header.Values_Set_ne _ _ _ _ hGC.symm, Header.Values_Set_ne _ _ _ _ hAC.symm]
  | some w =>
    refine ⟨?_, ?_, ?_, ?_⟩
    · simp only [Header.Get_Set_ne _ _ _ _ hAC, Header.Get_Set_ne _ _ _ _ hAG,
        Header.Get_Set_same]
    · simp only [Header.Get_Set_ne _ _ _ _ hGC, Header.Get_Set_same]
    · intro v hv
      cases hv
      simp only [Header.Get_Set_same]
    · intro hv
      cases hv

/-- The calls of `GetGuestToken`, and the fields it never writes. -/
theorem GetGuestToken_frame (env : Env) (s : Scraper) :
    (GetGuestToken env s).trace
      = [Event.getGuestToken, Event.clientDo (guestActivateRequest s)] ∧
    (GetGuestToken env s).scraper.bearerToken = s.bearerToken ∧
    (GetGuestToken env s).scraper.delay = s.delay ∧
    (GetGuestToken env s).scraper.isLogged = s.isLogged := by
  unfold GetGuestToken
  dsimp only
  split
  · exact ⟨rfl, rfl, rfl, rfl⟩
  · split
    · exact ⟨rfl, rfl, rfl, rfl⟩
    · split
      · exact ⟨rfl, rfl, rfl, rfl⟩
      · split
        · exact ⟨rfl, rfl, rfl, rfl⟩
        · split <;> exact ⟨rfl, rfl, rfl, rfl⟩

/-- The credential check reuses the stored token exactly when there is one
and it is at most three hours old. -/
theorem ensureGuestToken_eq (env : Env) (s : Scraper) :
    ensureGuestToken env s =
      if s.guestToken ≠ "" ∧ env.now - s.guestCreatedAt ≤ Hour * 3 then
        { err := none, scraper := s, trace := [] }
      else GetGuestToken env s := by
  unfold ensureGuestToken
  have h3 : (-Hour) * 3 = -(Hour * 3) := by ring
  by_cases hf : s.guestToken ≠ "" ∧ env.now - s.guestCreatedAt ≤ Hour * 3
  · rw [if_pos hf, if_neg]
    intro h
    rcases h with h | h
    · apply h
      simp [Scraper.IsGuestToken, hf.1]
    · rw [h3] at h
      have := hf.2
      omega
  · rw [if_neg hf, if_pos]
    by_cases ht : s.guestToken = ""
    · left
      simp [Scraper.IsGuestToken, ht]
    · right
      rw [h3]
      have hage : ¬ env.now - s.guestCreatedAt ≤ Hour * 3 := fun h => hf ⟨ht, h⟩
      omega

/-- The calls of `RequestAPI`, in order: the wait, those of the credential
check, the request when the check passed, the release when a delay is set. -/
theorem RequestAPI_trace {τ : Type} (env : Env) (unmarshal : String → τ → τ × Option Error)
    (s : Scraper) (req : Request) (target : τ) :
    (RequestAPI env unmarshal s req target).trace =
      Event.wgWait :: ((ensureGuestToken env s).trace ++
        (if (ensureGuestToken env s).err = none then [Event.clientDo (sentRequest env s req)]
          else [])) ++
        (if s.delay > 0
          then [Event.release (ensureGuestToken env s).scraper.delay] else []) ∧
    (RequestAPI env unmarshal s req target).scraper = (ensureGuestToken env s).scraper ∧
    ((ensureGuestToken env s).err = none →
      (RequestAPI env unmarshal s req target).req = sentRequest env s req) := by
  unfold RequestAPI requestAPIBody
  cases he : (ensureGuestToken env s).err with
  | some e => simp
  | none =>
    cases hd : env.doRequest (sentRequest env s req) with
    | error e => simp
    | ok resp => simp

/-- C9: when the credential check passes, the request handed to the transport
carries `Authorization` equal to "Bearer " followed by the bearer token of the
scraper and `X-Guest-Token` equal to the stored guest token; when the jar holds
a cookie named `ct0` for the URL, `X-CSRF-Token` is the value of the first such
cookie; when it holds none, the values of `X-CSRF-Token` are those the request
came with, and the request is sent all the same. -/
theorem RequestAPI_request_headers {τ : Type} (env : Env)
    (unmarshal : String → τ → τ × Option Error) (s : Scraper) (req : Request) (target : τ)
    (hTok : (ensureGuestToken env s).err = none) :
    Event.clientDo (RequestAPI env unmarshal s req target).req
      ∈ (RequestAPI env unmarshal s req target).trace ∧
    (RequestAPI env unmarshal s req target).scraper.bearerToken = s.bearerToken ∧
    (RequestAPI env unmarshal s req target).req.Header.Get "Authorization"
      = "Bearer " ++ (RequestAPI env unmarshal s req target).scraper.bearerToken ∧
    (RequestAPI env unmarshal s req target).req.Header.Get "X-Guest-Token"
      = (RequestAPI env unmarshal s req target).scraper.guestToken ∧
    (∀ pre c post, env.cookies req.URL = pre ++ c :: post → (∀ x ∈ pre, x.Name ≠ "ct0") →
      c.Name = "ct0" →
      (RequestAPI env unmarshal s req target).req.Header.Get "X-CSRF-Token" = c.Value) ∧
    ((∀ c ∈ env.cookies req.URL, c.Name ≠ "ct0") →
      (RequestAPI env unmarshal s req target).req.Header.Values "X-CSRF-Token"
        = req.Header.Values "X-CSRF-Token") := by
  obtain ⟨htr, hsc, hreq⟩ := RequestAPI_trace env unmarshal s req target
  have hreq1 := hreq hTok
  obtain ⟨hA, hG, hC, hN⟩ :=
    attachCredentials_headers (ensureGuestToken env s).scraper (env.cookies req.URL) req
  have hb : (ensureGuestToken env s).scraper.bearerToken = s.bearerToken := by
    rw [ensureGuestToken_eq]
    split
    · rfl
    · exact (GetGuestToken_frame env s).2.1
  rw [hreq1, hsc]
  refine ⟨?_, hb, hA, hG, ?_, ?_⟩
  · rw [htr]
    simp [hTok]
  · intro pre c post hcs hpre hc
    apply hC
    rw [hcs]
    exact csrfCookie_first pre post c hpre hc
  · intro hnone
    exact hN (csrfCookie_none _ hnone)

/-- C9, on the sample scraper with three cookies in the jar, two of them
named `ct0`. -/
theorem RequestAPI_request_headers_witness :
    (RequestAPI (sampleEnv 0 (Except.error "")
        [{ Name := "lang", Value := "en" }, { Name := "ct0", Value := "abc" },
          { Name := "ct0", Value := "xyz" }]
        (Except.ok rateLimited)) storeBody sampleScraper sampleRequest "").req.Header.Get
        "X-Guest-Token" = "1234567890" ∧
    (RequestAPI (sampleEnv 0 (Except.error "")
        [{ Name := "lang", Value := "en" }, { Name := "ct0", Value := "abc" },
          { Name := "ct0", Value := "xyz" }]
        (Except.ok rateLimited)) storeBody sampleScraper sampleRequest "").req.Header.Get
        "X-CSRF-Token" = "abc" :=
  have h := RequestAPI_request_headers (sampleEnv 0 (Except.error "")
      [{ Name := "lang", Value := "en" }, { Name := "ct0", Value := "abc" },
        { Name := "ct0", Value := "xyz" }]
      (Except.ok rateLimited)) storeBody sampleScraper sampleRequest "" (by decide)
  ⟨h.2.2.2.1, h.2.2.2.2.1 [{ Name := "lang", Value := "en" }] { Name := "ct0", Value := "abc" }
    [{ Name := "ct0", Value := "xyz" }] rfl (by decide) rfl⟩

/-- When the credential check fails, `RequestAPI` returns its error and
leaves the request and the target as they were. -/
theorem RequestAPI_refresh_failed {τ : Type} (env : Env)
    (unmarshal : String → τ → τ × Option Error) (s : Scraper) (req : Request) (target : τ)
    (e : Error) (he : (ensureGuestToken env s).err = some e) :
    (RequestAPI env unmarshal s req target).err = some e ∧
    (RequestAPI env unmarshal s req target).req = req ∧
    (RequestAPI env unmarshal s req target).headers = none ∧
    (RequestAPI env unmarshal s req target).target = target := by
  unfold RequestAPI requestAPIBody
  simp [he]

/-- C4: `RequestAPI` makes no call to `GetGuestToken` exactly when a guest
token is stored and at most three hours have passed since it was created; then
the scraper is left as it was and the request carries the stored token.  In
every other case, no token or more than three hours, `GetGuestToken` is called
before the credential is attached: the call and its request come right after
the wait, the scraper is the one `GetGuestToken` leaves, and when it returns nil
the request is sent after it and carries the guest token it stored, while when
it returns an error that error is returned, the request is left as it was and
nothing more is sent. -/
theorem RequestAPI_refresh_iff {τ : Type} (env : Env)
    (unmarshal : String → τ → τ × Option Error) (s : Scraper) (req : Request) (target : τ) :
    (Event.getGuestToken ∉ (RequestAPI env unmarshal s req target).trace ↔
      (s.guestToken ≠ "" ∧ env.now - s.guestCreatedAt ≤ Hour * 3)) ∧
    ((s.guestToken ≠ "" ∧ env.now - s.guestCreatedAt ≤ Hour * 3) →
      (RequestAPI env unmarshal s req target).scraper = s ∧
      (RequestAPI env unmarshal s req target).req.Header.Get "X-Guest-Token" = s.guestToken) ∧
    (¬ (s.guestToken ≠ "" ∧ env.now - s.guestCreatedAt ≤ Hour * 3) →
      (RequestAPI env unmarshal s req target).scraper = (GetGuestToken env s).scraper ∧
      (∃ rest, (RequestAPI env unmarshal s req target).trace =
        Event.wgWait :: Event.getGuestToken :: Event.clientDo (guestActivateRequest s) :: rest ∧
        Event.getGuestToken ∉ rest ∧
        ((GetGuestToken env s).err = none →
          Event.clientDo (RequestAPI env unmarshal s req target).req ∈ rest) ∧
        ((GetGuestToken env s).err ≠ none → ∀ q, Event.clientDo q ∉ rest)) ∧
      ((GetGuestToken env s).err = none →
        (RequestAPI env unmarshal s req target).req.Header.Get "X-Guest-Token"
          = (GetGuestToken env s).scraper.guestToken) ∧
      (∀ e, (GetGuestToken env s).err = some e →
        (RequestAPI env unmarshal s req target).err = some e ∧
        (RequestAPI env unmarshal s req target).req = req)) := by
  obtain ⟨htr, hsc, hreq⟩ := RequestAPI_trace env unmarshal s req target
  have he := ensureGuestToken_eq env s
  by_cases hf : s.guestToken ≠ "" ∧ env.now - s.guestCreatedAt ≤ Hour * 3
  · rw [if_pos hf] at he
    have herr : (ensureGuestToken env s).err = none := by rw [he]
    have hreq1 := hreq herr
    refine ⟨?_, ?_, ?_⟩
    · refine ⟨fun _ => hf, fun _ => ?_⟩
      rw [htr, he]
      by_cases hd : s.delay > 0 <;> simp [hd]
    · intro _
      refine ⟨by rw [hsc, he], ?_⟩
      rw [hreq1]
      have := (attachCredentials_headers (ensureGuestToken env s).scraper
        (env.cookies req.URL) req).2.1
      unfold sentRequest
      rw [this, he]
    · intro hn
      exact absurd hf hn
  · rw [if_neg hf] at he
    have hgt := (GetGuestToken_frame env s).1
    refine ⟨?_, ?_, ?_⟩
    · refine ⟨fun hnot => absurd ?_ hnot, fun h1 => absurd h1 hf⟩
      rw [htr, he, hgt]
      simp
    · intro h1
      exact absurd h1 hf
    · intro _
      refine ⟨by rw [hsc, he], ?_, ?_, ?_⟩
      · refine ⟨(if (GetGuestToken env s).err = none
            then [Event.clientDo (sentRequest env s req)] else []) ++
          (if s.delay > 0 then [Event.release (GetGuestToken env s).scraper.delay] else []),
          by rw [htr, he, hgt]; rfl, ?_, ?_, ?_⟩
        · by_cases hd : s.delay > 0 <;>
            by_cases hn : (GetGuestToken env s).err = none <;> simp [hd, hn]
        · intro hn
          have hreq1 := hreq (by rw [he]; exact hn)
          rw [hreq1]
          simp [hn]
        · intro hn q
          by_cases hd : s.delay > 0 <;> simp [hd, hn]
      · intro hn
        have hreq1 := hreq (by rw [he]; exact hn)
        rw [hreq1]
        have := (attachCredentials_headers (ensureGuestToken env s).scraper
          (env.cookies req.URL) req).2.1
        unfold sentRequest
        rw [this, he]
      · intro e hn
        have hfail := RequestAPI_refresh_failed env unmarshal s req target e
          (by rw [he]; exact hn)
        exact ⟨hfail.1, hfail.2.1⟩

/-- C4, on a token three hours and one nanosecond old, with an issuance that
answers `{"guest_token":"1691"}`: `GetGuestToken` is called, and the request
sent carries the new token. -/
theorem RequestAPI_refresh_iff_witness :
    Event.getGuestToken ∈ (RequestAPI (sampleEnv (Hour * 3 + 1)
        (Except.ok (issued "\x7b\"guest_token\":\"1691\"\x7d")) [] (Except.ok rateLimited))
      storeBody sampleScraper sampleRequest "").trace ∧
    (RequestAPI (sampleEnv (Hour * 3 + 1)
        (Except.ok (issued "\x7b\"guest_token\":\"1691\"\x7d")) [] (Except.ok rateLimited))
      storeBody sampleScraper sampleRequest "").req.Header.Get "X-Guest-Token" = "1691" :=
  have h := RequestAPI_refresh_iff (sampleEnv (Hour * 3 + 1)
      (Except.ok (issued "\x7b\"guest_token\":\"1691\"\x7d")) [] (Except.ok rateLimited))
    storeBody sampleScraper sampleRequest ""
  ⟨by_contra (fun hn => absurd (h.1.mp hn) (by decide)),
    ((h.2.2 (by decide)).2.2.1 (by decide)).trans (by decide)⟩

/-- C4 as stated fails at the boundary: it is not so that `GetGuestToken` is
left uncalled exactly when a token is stored and less than three hours old;
with a token created exactly three hours before `now`, `RequestAPI` reuses the
token without calling it. -/
theorem RequestAPI_refresh_boundary :
    ¬ (∀ (env : Env) (s : Scraper) (req : Request) (target : String),
      Event.getGuestToken ∉ (RequestAPI env storeBody s req target).trace ↔
        (s.guestToken ≠ "" ∧ env.now - s.guestCreatedAt < Hour * 3)) := by
  intro h
  have h1 := h (sampleEnv (Hour * 3) (Except.error "") [] (Except.ok rateLimited))
    sampleScraper sampleRequest ""
  revert h1
  decide

/-- C5: for an issuance response whose body was read, `GetGuestToken` returns a
text error holding the status line and the body when the status is not 200;
with status 200 it returns the error of the decoder when the body does not
decode into a map, and the error "guest_token not found" when the body decodes
into a map, from `null` or from an object, that has no string under
`guest_token`; it returns nil only when the status is 200 and the body is an
object with a string under `guest_token`, and then the stored token is that
string. -/
theorem GetGuestToken_result (env : Env) (s : Scraper) (resp : Response)
    (hDo : env.doIssue (guestActivateRequest s) = Except.ok resp)
    (hRead : resp.BodyErr = none) :
    (resp.StatusCode ≠ 200 →
      (GetGuestToken env s).err
        = some (Error.text ("response status " ++ resp.Status ++ ": " ++ resp.Body))) ∧
    (resp.StatusCode = 200 → unmarshalMap resp.Body = none →
      (GetGuestToken env s).err = some Error.unmarshal) ∧
    (resp.StatusCode = 200 → parseJSON resp.Body = some JSON.null →
      (GetGuestToken env s).err = some (Error.text "guest_token not found")) ∧
    (resp.StatusCode = 200 → ∀ kvs, parseJSON resp.Body = some (JSON.obj kvs) →
      hasRangeErrorFields kvs = false → (∀ t, mapIndex kvs "guest_token" ≠ some (JSON.str t)) →
      (GetGuestToken env s).err = some (Error.text "guest_token not found")) ∧
    (resp.StatusCode = 200 → ∀ kvs t, parseJSON resp.Body = some (JSON.obj kvs) →
      hasRangeErrorFields kvs = false → mapIndex kvs "guest_token" = some (JSON.str t) →
      (GetGuestToken env s).err = none ∧ (GetGuestToken env s).scraper.guestToken = t) ∧
    ((GetGuestToken env s).err = none →
      resp.StatusCode = 200 ∧
      ∃ kvs t, parseJSON resp.Body = some (JSON.obj kvs) ∧
        mapIndex kvs "guest_token" = some (JSON.str t) ∧
        (GetGuestToken env s).scraper.guestToken = t) := by
  have hg : GetGuestToken env s =
      if resp.StatusCode ≠ 200 then
        { err := some (Error.text ("response status " ++ resp.Status ++ ": " ++ resp.Body))
          scraper := s
          trace := [Event.getGuestToken, Event.clientDo (guestActivateRequest s)] }
      else
        match unmarshalMap resp.Body with
        | none =>
          { err := some Error.unmarshal, scraper := s
            trace := [Event.getGuestToken, Event.clientDo (guestActivateRequest s)] }
        | some jsn =>
          if ¬ (guestTokenField jsn).2 then
            { err := some (Error.text "guest_token not found")
              scraper := { s with guestToken := (guestTokenField jsn).1 }
              trace := [Event.getGuestToken, Event.clientDo (guestActivateRequest s)] }
          else
            { err := none
              scraper :=
                { s with guestToken := (guestTokenField jsn).1, guestCreatedAt := env.issuedNow }
              trace := [Event.getGuestToken, Event.clientDo (guestActivateRequest s)] } := by
    unfold GetGuestToken
    simp only [hDo, hRead]
  rw [hg]
  refine ⟨?_, ?_, ?_, ?_, ?_, ?_⟩
  · intro hs
    rw [if_pos hs]
  · intro hs hu
    rw [if_neg (not_not.mpr hs), hu]
  · intro hs hp
    have hu : unmarshalMap resp.Body = some none := by
      unfold unmarshalMap
      rw [hp]
      rfl
    rw [if_neg (not_not.mpr hs), hu]
    rfl
  · intro hs kvs hp hr hno
    have hu : unmarshalMap resp.Body = some (some kvs) := by
      unfold unmarshalMap
      rw [hp]
      simp [decodeMap, hr]
    have hf : (guestTokenField (some kvs)).2 = false := by
      cases hm : mapIndex kvs "guest_token" with
      | none => simp [guestTokenField, hm, assertString]
      | some v =>
        cases v with
        | str t => exact absurd hm (hno t)
        | null => simp [guestTokenField, hm, assertString]
        | bool b => simp [guestTokenField, hm, assertString]
        | num l => simp [guestTokenField, hm, assertString]
        | arr xs => simp [guestTokenField, hm, assertString]
        | obj m => simp [guestTokenField, hm, assertString]
    rw [if_neg (not_not.mpr hs), hu]
    simp [hf]
  · intro hs kvs t hp hr hm
    have hu : unmarshalMap resp.Body = some (some kvs) := by
      unfold unmarshalMap
      rw [hp]
      simp [decodeMap, hr]
    have hf : guestTokenField (some kvs) = (t, true) := by
      simp [guestTokenField, hm, assertString]
    rw [if_neg (not_not.mpr hs), hu]
    simp [hf]
  · intro hnil
    by_cases hs : resp.StatusCode = 200
    · refine ⟨hs, ?_⟩
      rw [if_neg (not_not.mpr hs)] at hnil ⊢
      unfold unmarshalMap at hnil ⊢
      cases hp : parseJSON resp.Body with
      | none => rw [hp] at hnil; simp at hnil
      | some v =>
        rw [hp] at hnil
        cases v with
        | null => simp [decodeMap, guestTokenField] at hnil
        | bool b => simp [decodeMap] at hnil
        | num l => simp [decodeMap] at hnil
        | str t => simp [decodeMap] at hnil
        | arr xs => simp [decodeMap] at hnil
        | obj kvs =>
          by_cases hr : hasRangeErrorFields kvs = true
          · simp [decodeMap, hr] at hnil
          · simp only [decodeMap, hr] at hnil ⊢
            cases hm : mapIndex kvs "guest_token" with
            | none => simp [guestTokenField, hm, assertString] at hnil
            | some w =>
              cases w with
              | str t =>
                refine ⟨kvs, t, rfl, hm, ?_⟩
                simp [guestTokenField, hm, assertString]
              | null => simp [guestTokenField, hm, assertString] at hnil
              | bool b => simp [guestTokenField, hm, assertString] at hnil
              | num l => simp [guestTokenField, hm, assertString] at hnil
              | arr xs => simp [guestTokenField, hm, assertString] at hnil
              | obj m => simp [guestTokenField, hm, assertString] at hnil
    · rw [if_pos hs] at hnil
      simp at hnil

/-- C5, on the issuance body `{"guest_token":"1691"}`: the call returns nil
and stores the token. -/
theorem GetGuestToken_result_witness :
    (GetGuestToken (sampleEnv 5 (Except.ok (issued "\x7b\"guest_token\":\"1691\"\x7d")) []
        (Except.error "")) sampleScraper).err = none ∧
    (GetGuestToken (sampleEnv 5 (Except.ok (issued "\x7b\"guest_token\":\"1691\"\x7d")) []
        (Except.error "")) sampleScraper).scraper.guestToken = "1691" :=
  (GetGuestToken_result (sampleEnv 5 (Except.ok (issued "\x7b\"guest_token\":\"1691\"\x7d")) []
      (Except.error "")) sampleScraper (issued "\x7b\"guest_token\":\"1691\"\x7d") rfl rfl).2.2.2.2.1
    rfl [("guest_token", JSON.str "1691")] "1691" (by rfl) (by rfl) (by rfl)

/-- C5 as stated fails on a body that is JSON and is not an object: the body
`[]` has no member at all, and with status 200 the call returns the error of
the decoder, not "guest_token not found". -/
theorem GetGuestToken_array_body :
    (issued "[]").StatusCode = 200 ∧
    parseJSON (issued "[]").Body = some (JSON.arr []) ∧
    (GetGuestToken (sampleEnv 5 (Except.ok (issued "[]")) [] (Except.error ""))
      sampleScraper).err = some Error.unmarshal ∧
    (GetGuestToken (sampleEnv 5 (Except.ok (issued "[]")) [] (Except.error ""))
      sampleScraper).err ≠ some (Error.text "guest_token not found") := by
  refine ⟨rfl, by rfl, by decide, by decide⟩

/-- C6 fails on the code: with the token "1234567890" stored and created at
instant zero, an issuance response with status 200 and the body `{}` makes
`GetGuestToken` return "guest_token not found" with the stored token replaced by
the empty string and the creation instant left at zero. -/
theorem GetGuestToken_missing_field_clears_token :
    sampleScraper.guestToken = "1234567890" ∧
    (GetGuestToken (sampleEnv 5 (Except.ok (issued "\x7b\x7d")) [] (Except.error ""))
      sampleScraper).err = some (Error.text "guest_token not found") ∧
    (GetGuestToken (sampleEnv 5 (Except.ok (issued "\x7b\x7d")) [] (Except.error ""))
      sampleScraper).scraper.guestToken = "" ∧
    (GetGuestToken (sampleEnv 5 (Except.ok (issued "\x7b\x7d")) [] (Except.error ""))
      sampleScraper).scraper.guestCreatedAt = sampleScraper.guestCreatedAt := by
  decide

/-- C10 fails on the code: on a response with status 200 whose header
`X-Rate-Limit-Limit` is `abc`, `RequestAPI` returns a nil snapshot together
with a nil error and leaves the target undecoded, and
`getSearchTimelineWithResponseHeaders` hands on nil response headers with a nil
error. -/
theorem RequestAPI_nil_snapshot_nil_error :
    (RequestAPI (sampleEnv 0 (Except.error "") []
        (Except.ok (answered 200 "X-Rate-Limit-Limit" "abc")))
      storeBody sampleScraper sampleRequest "").headers = none ∧
    (RequestAPI (sampleEnv 0 (Except.error "") []
        (Except.ok (answered 200 "X-Rate-Limit-Limit" "abc")))
      storeBody sampleScraper sampleRequest "").err = none ∧
    (RequestAPI (sampleEnv 0 (Except.error "") []
        (Except.ok (answered 200 "X-Rate-Limit-Limit" "abc")))
      storeBody sampleScraper sampleRequest "").target = "" ∧
    (getSearchTimelineWithResponseHeaders samplePackage
      (sampleEnv 0 (Except.error "") []
        (Except.ok (answered 200 "X-Rate-Limit-Limit" "abc")))
      sampleScraper "golang" 20 "").val = (some "", none, none) := by
  decide

/-- One round of the header loop on an entry that is not unparsable: only the
field the name stands for changes, to the integer in the first value. -/
theorem rateLimitStep_some (acc : ResponseAPIHeaders) (k : String) (vs : List String)
    (h : unparsable (k, vs) = false) :
    rateLimitStep acc k vs = some
      { XRateLimitReset := if toLower k = "x-rate-limit-reset" then firstInt vs acc.XRateLimitReset
          else acc.XRateLimitReset
        XRateLimitLimit := if toLower k = "x-rate-limit-limit" then firstInt vs acc.XRateLimitLimit
          else acc.XRateLimitLimit
        XRateLimitRemaining :=
          if toLower k = "x-rate-limit-remaining" then firstInt vs acc.XRateLimitRemaining
          else acc.XRateLimitRemaining } := by
  unfold rateLimitStep
  unfold unparsable rateLimitNames at h
  by_cases hL : toLower k = "x-rate-limit-limit"
  · cases vs with
    | nil => simp [hL, firstInt]
    | cons v rest =>
      cases hp : ParseInt v 64 with
      | none => simp [hL, hp] at h
      | some n => simp [hL, hp, firstInt, Atoi]
  · by_cases hR : toLower k = "x-rate-limit-reset"
    · cases vs with
      | nil => simp [hR, firstInt]
      | cons v rest =>
        cases hp : ParseInt v 64 with
        | none => simp [hR, hp] at h
        | some n => simp [hR, hp, firstInt, Atoi]
    · by_cases hM : toLower k = "x-rate-limit-remaining"
      · cases vs with
        | nil => simp [hM, firstInt]
        | cons v rest =>
          cases hp : ParseInt v 64 with
          | none => simp [hM, hp] at h
          | some n => simp [hM, hp, firstInt, Atoi]
      · simp [hL, hR, hM]

/-- One round of the header loop on an unparsable entry takes the `return`. -/
theorem rateLimitStep_none (acc : ResponseAPIHeaders) (k : String) (vs : List String)
    (h : unparsable (k, vs) = true) : rateLimitStep acc k vs = none := by
  unfold rateLimitStep
  unfold unparsable rateLimitNames at h
  cases vs with
  | nil => simp at h
  | cons v rest =>
    simp only [Bool.and_eq_true, decide_eq_true_eq, Option.isNone_iff_eq_none] at h
    obtain ⟨hn, hp⟩ := h
    simp only [List.mem_cons, List.mem_singleton, List.not_mem_nil, or_false] at hn
    rcases hn with hn | hn | hn <;> simp [hn, hp, Atoi]

/-- The header loop takes the `return` as soon as some entry is unparsable. -/
theorem rateLimitLoop_none (h : Header) (acc : ResponseAPIHeaders)
    (hex : ∃ e ∈ h, unparsable e = true) : rateLimitLoop h acc = none := by
  induction h generalizing acc with
  | nil =>
    obtain ⟨e, he, _⟩ := hex
    cases he
  | cons e rest ih =>
    obtain ⟨k, vs⟩ := e
    by_cases hu : unparsable (k, vs) = true
    · simp [rateLimitLoop, rateLimitStep_none acc k vs hu]
    · have hu1 : unparsable (k, vs) = false := by simpa using hu
      obtain ⟨e1, he1, hbad⟩ := hex
      have hrest : ∃ e ∈ rest, unparsable e = true := by
        rcases List.mem_cons.mp he1 with h1 | h1
        · rw [h1] at hbad
          exact absurd hbad hu
        · exact ⟨e1, h1, hbad⟩
      simp only [rateLimitLoop, rateLimitStep_some acc k vs hu1]
      exact ih _ hrest

/-- The header loop runs to its end when no entry is unparsable. -/
theorem rateLimitLoop_isSome (h : Header) (acc : ResponseAPIHeaders)
    (hok : ∀ e ∈ h, unparsable e = false) : ∃ r, rateLimitLoop h acc = some r := by
  induction h generalizing acc with
  | nil => exact ⟨acc, rfl⟩
  | cons e rest ih =>
    obtain ⟨k, vs⟩ := e
    have hu1 : unparsable (k, vs) = false := hok (k, vs) (List.mem_cons_self _ _)
    simp only [rateLimitLoop, rateLimitStep_some acc k vs hu1]
    exact ih _ (fun e1 he1 => hok e1 (List.mem_cons_of_mem _ he1))

/-- The field for a name, on a header with one more entry in front. -/
theorem headerField_cons (k : String) (vs : List String) (rest : Header) (name : String)
    (d : Int) :
    headerField ((k, vs) :: rest) name d =
      if toLower k = name then firstInt vs d else headerField rest name d := by
  unfold headerField
  by_cases hk : toLower k = name
  · simp [List.find?, hk]
  · simp [List.find?, hk]

/-- The field for a name that no entry carries is the default. -/
theorem headerField_absent (h : Header) (name : String) (d : Int)
    (hno : ∀ e ∈ h, toLower e.1 ≠ name) : headerField h name d = d := by
  induction h with
  | nil => rfl
  | cons e rest ih =>
    obtain ⟨k, vs⟩ := e
    have hk : ¬ toLower k = name := hno (k, vs) (List.mem_cons_self _ _)
    rw [headerField_cons, if_neg hk]
    exact ih (fun e1 he1 => hno e1 (List.mem_cons_of_mem _ he1))

/-- One round of the loop followed by the fields of the rest gives the fields
of the whole header, when the name of the first entry does not come again. -/
theorem headerField_step (k : String) (vs : List String) (rest : Header) (name : String)
    (d : Int) (hfresh : toLower k ∉ rest.map (fun e => toLower e.1)) :
    headerField rest name (if toLower k = name then firstInt vs d else d)
      = headerField ((k, vs) :: rest) name d := by
  rw [headerField_cons]
  by_cases hk : toLower k = name
  · rw [if_pos hk, if_pos hk]
    apply headerField_absent
    intro e he hname
    apply hfresh
    rw [hk, ← hname]
    exact List.mem_map_of_mem (fun e => toLower e.1) he
  · rw [if_neg hk, if_neg hk]

/-- The header loop computes the fields the specification words, when no entry
is unparsable and no two names agree up to case. -/
theorem rateLimitLoop_some (h : Header) (acc : ResponseAPIHeaders)
    (hok : ∀ e ∈ h, unparsable e = false)
    (hnd : (h.map (fun e => toLower e.1)).Nodup) :
    rateLimitLoop h acc = some
      { XRateLimitReset := headerField h "x-rate-limit-reset" acc.XRateLimitReset
        XRateLimitLimit := headerField h "x-rate-limit-limit" acc.XRateLimitLimit
        XRateLimitRemaining := headerField h "x-rate-limit-remaining" acc.XRateLimitRemaining } := by
  induction h generalizing acc with
  | nil => rfl
  | cons e rest ih =>
    obtain ⟨k, vs⟩ := e
    have hu1 : unparsable (k, vs) = false := hok (k, vs) (List.mem_cons_self _ _)
    have hnd1 := List.nodup_cons.mp hnd
    have hrest := ih
      { XRateLimitReset := if toLower k = "x-rate-limit-reset"
          then firstInt vs acc.XRateLimitReset else acc.XRateLimitReset
        XRateLimitLimit := if toLower k = "x-rate-limit-limit"
          then firstInt vs acc.XRateLimitLimit else acc.XRateLimitLimit
        XRateLimitRemaining := if toLower k = "x-rate-limit-remaining"
          then firstInt vs acc.XRateLimitRemaining else acc.XRateLimitRemaining }
      (fun e1 he1 => hok e1 (List.mem_cons_of_mem _ he1)) hnd1.2
    simp only [rateLimitLoop, rateLimitStep_some acc k vs hu1]
    rw [hrest]
    simp only [headerField_step k vs rest _ _ hnd1.1]

/-- The results of `handleResponse` on a status 200 or 403. -/
theorem handleResponse_accepted {τ : Type} (unmarshal : String → τ → τ × Option Error)
    (resp : Response) (target : τ) (hs : resp.StatusCode = 200 ∨ resp.StatusCode = 403) :
    handleResponse unmarshal resp target =
      match rateLimitLoop resp.Header
        { XRateLimitReset := 0, XRateLimitLimit := 0, XRateLimitRemaining := 0 } with
      | none => (none, none, target)
      | some requestAPIHeaders =>
        match resp.BodyErr with
        | some e => (none, some (Error.read e), target)
        | none =>
          (some requestAPIHeaders, (unmarshal resp.Body target).2,
            (unmarshal resp.Body target).1) := by
  unfold handleResponse
  have hc : ¬ (resp.StatusCode ≠ 200 ∧ resp.StatusCode ≠ 403) := by
    intro h
    rcases hs with h1 | h1
    · exact h.1 h1
    · exact h.2 h1
  simp only [if_neg hc]

/-- On a response with status 200 or 403 none of whose rate-limit headers is
unparsable and whose body was read, `RequestAPI` returns a snapshot, the decoded
target and the error of the decoding. -/
theorem RequestAPI_accepted {τ : Type} (env : Env)
    (unmarshal : String → τ → τ × Option Error) (s : Scraper) (req : Request) (target : τ)
    (resp : Response) (hTok : (ensureGuestToken env s).err = none)
    (hDo : env.doRequest (sentRequest env s req) = Except.ok resp)
    (hs : resp.StatusCode = 200 ∨ resp.StatusCode = 403)
    (hok : ∀ e ∈ resp.Header, unparsable e = false) (hread : resp.BodyErr = none) :
    (RequestAPI env unmarshal s req target).headers ≠ none ∧
    (RequestAPI env unmarshal s req target).target = (unmarshal resp.Body target).1 ∧
    (RequestAPI env unmarshal s req target).err = (unmarshal resp.Body target).2 := by
  have hb := requestAPIBody_of_response env unmarshal s req target resp hTok hDo
  obtain ⟨f1, f2, f3, -, -⟩ := RequestAPI_fields env unmarshal s req target
  rw [f1, f2, f3, hb]
  have hr := handleResponse_accepted unmarshal resp target hs
  simp only [hr]
  obtain ⟨r, hr1⟩ := rateLimitLoop_isSome resp.Header
    { XRateLimitReset := 0, XRateLimitLimit := 0, XRateLimitRemaining := 0 } hok
  rw [hr1, hread]
  simp

/-- C3: on a response with status 200 or 403, when a rate-limit header has a
first value that is not an integer, `RequestAPI` returns no snapshot and leaves
the target undecoded.  When no rate-limit header is so and the body was read,
it returns a snapshot, the target holds the decoded body and the error is that
of the decoding; and when also no two header names agree up to case, each field
of the snapshot is the integer in the first value of the header with the
matching name, zero when that header is absent or has no value. -/
theorem RequestAPI_rate_limit_snapshot {τ : Type} (env : Env)
    (unmarshal : String → τ → τ × Option Error) (s : Scraper) (req : Request) (target : τ)
    (resp : Response) (hTok : (ensureGuestToken env s).err = none)
    (hDo : env.doRequest (sentRequest env s req) = Except.ok resp)
    (hs : resp.StatusCode = 200 ∨ resp.StatusCode = 403) :
    ((∃ e ∈ resp.Header, unparsable e = true) →
      (RequestAPI env unmarshal s req target).headers = none ∧
      (RequestAPI env unmarshal s req target).target = target) ∧
    ((∀ e ∈ resp.Header, unparsable e = false) → resp.BodyErr = none →
      (RequestAPI env unmarshal s req target).headers ≠ none ∧
      (RequestAPI env unmarshal s req target).target = (unmarshal resp.Body target).1 ∧
      (RequestAPI env unmarshal s req target).err = (unmarshal resp.Body target).2) ∧
    ((∀ e ∈ resp.Header, unparsable e = false) → resp.BodyErr = none →
      (resp.Header.map (fun e => toLower e.1)).Nodup →
      (RequestAPI env unmarshal s req target).headers = some (snapshotOf resp.Header)) := by
  have hb := requestAPIBody_of_response env unmarshal s req target resp hTok hDo
  obtain ⟨f1, f2, f3, -, -⟩ := RequestAPI_fields env unmarshal s req target
  rw [f1, f2, f3, hb]
  have hr := handleResponse_accepted unmarshal resp target hs
  simp only [hr]
  refine ⟨?_, ?_, ?_⟩
  · intro hex
    rw [rateLimitLoop_none _ _ hex]
    exact ⟨rfl, rfl⟩
  · intro hok hread
    have ha := RequestAPI_accepted env unmarshal s req target resp hTok hDo hs hok hread
    rw [f1, f2, f3, hb] at ha
    simp only [hr] at ha
    exact ha
  · intro hok hread hnd
    rw [rateLimitLoop_some _ _ hok hnd, hread]
    rfl

/-- C3, on a response with status 200 and the header `X-Rate-Limit-Remaining`
equal to `42`: the snapshot has 42 remaining and zero elsewhere, and the body
is decoded. -/
theorem RequestAPI_rate_limit_snapshot_witness :
    (RequestAPI (sampleEnv 0 (Except.error "") []
        (Except.ok (answered 200 "X-Rate-Limit-Remaining" "42")))
      storeBody sampleScraper sampleRequest "").headers
      = some { XRateLimitReset := 0, XRateLimitLimit := 0, XRateLimitRemaining := 42 } ∧
    (RequestAPI (sampleEnv 0 (Except.error "") []
        (Except.ok (answered 200 "X-Rate-Limit-Remaining" "42")))
      storeBody sampleScraper sampleRequest "").target = "\x7b\"ok\":true\x7d" :=
  have h := RequestAPI_rate_limit_snapshot (sampleEnv 0 (Except.error "") []
      (Except.ok (answered 200 "X-Rate-Limit-Remaining" "42")))
    storeBody sampleScraper sampleRequest "" (answered 200 "X-Rate-Limit-Remaining" "42")
    (by decide) rfl (Or.inl rfl)
  ⟨h.2.2 (by decide) rfl (by decide), (h.2.1 (by decide) rfl).2.1⟩

/-- C3 as stated fails on a header that is present and is not an integer: with
status 200 and `X-Rate-Limit-Remaining` equal to `soon`, the snapshot is not
the one with zero in each field, and the target does not hold the decoded
body. -/
theorem RequestAPI_unparsable_header :
    Atoi "soon" = none ∧
    (RequestAPI (sampleEnv 0 (Except.error "") []
        (Except.ok (answered 200 "X-Rate-Limit-Remaining" "soon")))
      storeBody sampleScraper sampleRequest "").headers
      ≠ some { XRateLimitReset := 0, XRateLimitLimit := 0, XRateLimitRemaining := 0 } ∧
    (RequestAPI (sampleEnv 0 (Except.error "") []
        (Except.ok (answered 200 "X-Rate-Limit-Remaining" "soon")))
      storeBody sampleScraper sampleRequest "").target
      ≠ (storeBody (answered 200 "X-Rate-Limit-Remaining" "soon").Body "").1 := by
  decide

/-- C2: on a response with status 403 whose body was read and decodes into
the target without error, and none of whose rate-limit headers has a first
value that is not an integer, `RequestAPI` returns a nil error and a snapshot
and the target holds the decoded body; and whatever the headers and the body,
the call returns and leaves behind exactly what it does when the transport
answers with the same response under status 200. -/
theorem RequestAPI_forbidden_as_ok {τ : Type} (env : Env)
    (unmarshal : String → τ → τ × Option Error) (s : Scraper) (req : Request) (target : τ)
    (resp : Response) (hTok : (ensureGuestToken env s).err = none)
    (hDo : env.doRequest (sentRequest env s req) = Except.ok resp)
    (h403 : resp.StatusCode = 403) :
    ((∀ e ∈ resp.Header, unparsable e = false) → resp.BodyErr = none →
      (unmarshal resp.Body target).2 = none →
      (RequestAPI env unmarshal s req target).err = none ∧
      (RequestAPI env unmarshal s req target).headers ≠ none ∧
      (RequestAPI env unmarshal s req target).target = (unmarshal resp.Body target).1) ∧
    RequestAPI env unmarshal s req target =
      RequestAPI { env with doRequest := fun _ => Except.ok { resp with StatusCode := 200 } }
        unmarshal s req target := by
  refine ⟨?_, ?_⟩
  · intro hok hread hvalid
    obtain ⟨g1, g2, g3⟩ := RequestAPI_accepted env unmarshal s req target resp hTok hDo
      (Or.inr h403) hok hread
    exact ⟨g3.trans hvalid, g1, g2⟩
  · have hTok2 : (ensureGuestToken
        { env with doRequest := fun _ => Except.ok { resp with StatusCode := 200 } } s).err
        = none := hTok
    have e1 : handleResponse unmarshal { resp with StatusCode := 200 } target
        = handleResponse unmarshal resp target := by
      rw [handleResponse_accepted unmarshal resp target (Or.inr h403),
        handleResponse_accepted unmarshal { resp with StatusCode := 200 } target (Or.inl rfl)]
    unfold RequestAPI
    rw [requestAPIBody_of_response env unmarshal s req target resp hTok hDo,
      requestAPIBody_of_response
        { env with doRequest := fun _ => Except.ok { resp with StatusCode := 200 } }
        unmarshal s req target { resp with StatusCode := 200 } hTok2 rfl, e1]
    rfl

/-- C2, on a response with status 403, a rate limit of 150 and a body that
decodes: nil error, and the target holds the body. -/
theorem RequestAPI_forbidden_as_ok_witness :
    (RequestAPI (sampleEnv 0 (Except.error "") []
        (Except.ok (answered 403 "x-rate-limit-limit" "150")))
      storeBody sampleScraper sampleRequest "").err = none ∧
    (RequestAPI (sampleEnv 0 (Except.error "") []
        (Except.ok (answered 403 "x-rate-limit-limit" "150")))
      storeBody sampleScraper sampleRequest "").target = "\x7b\"ok\":true\x7d" :=
  have h := (RequestAPI_forbidden_as_ok (sampleEnv 0 (Except.error "") []
      (Except.ok (answered 403 "x-rate-limit-limit" "150")))
    storeBody sampleScraper sampleRequest "" (answered 403 "x-rate-limit-limit" "150")
    (by decide) rfl rfl).1 (by decide) rfl (by decide)
  ⟨h.1, h.2.2⟩

/-- C2 as stated fails when a rate-limit header is not an integer: with status
403, `X-Rate-Limit-Reset` equal to `never` and a body that decodes into the
target without error, the target does not hold the decoded body after the
call. -/
theorem RequestAPI_forbidden_unparsable_header :
    (answered 403 "X-Rate-Limit-Reset" "never").StatusCode = 403 ∧
    (storeBody (answered 403 "X-Rate-Limit-Reset" "never").Body "").2 = none ∧
    (RequestAPI (sampleEnv 0 (Except.error "") []
        (Except.ok (answered 403 "X-Rate-Limit-Reset" "never")))
      storeBody sampleScraper sampleRequest "").target
      ≠ (storeBody (answered 403 "X-Rate-Limit-Reset" "never").Body "").1 := by
  decide

end TwitterScraper
